import Mathlib

/-!
Verification of the EKS sandbox orchestrator (bit-cloner/est).

The Go sources are shallowly embedded as pure Lean functions over an abstract
cloud gateway.  Every AWS SDK call the orchestrator issues is recorded in a
trace (a list of `Call` values) and the response of each call is given by a
`Gw` structure of pure response functions, so a run of the orchestrator is a
pure function from the gateway behaviour and the operator inputs to the pair
of the emitted call trace and the outcome.  Outcomes distinguish normal
completion, an error return (`log.Fatalf` in the Go mains, or an error result
of a helper), and a Go runtime panic (nil-pointer dereference).
-/

namespace Est

/-- Result of a run or of a single pipeline step: success, an error
(propagated or fatal), or a Go runtime panic. -/
inductive Res (α : Type) where
  | ok : α → Res α
  | fail : String → Res α
  | panicked : Res α
deriving DecidableEq, Repr

/-- Attachment of a network interface; in the AWS SDK this is a nullable
pointer, hence it appears below as an `Option`. -/
structure EniAttachment where
  attachmentId : String
deriving DecidableEq, Repr

/-- Network interface description as used by DeleteVPC: its id and its
(optional, nullable in Go) attachment. -/
structure Eni where
  networkInterfaceId : String
  attachment : Option EniAttachment
deriving DecidableEq, Repr

/-- Route-table association; `main` models the nullable `*bool` field
`association.Main` of the AWS SDK. -/
structure RtbAssociation where
  main : Option Bool
deriving DecidableEq, Repr

/-- Description of one route table returned by DescribeRouteTables. -/
structure RouteTableDesc where
  routeTableId : String
  associations : List RtbAssociation
deriving DecidableEq, Repr

/-- Description of one security group returned by DescribeSecurityGroups. -/
structure SgDesc where
  groupId : String
  groupName : String
deriving DecidableEq, Repr

/-- Description of an EKS cluster: its tag map.  A Go nil map is `none`;
a non-nil map is an association list (Go map keys are unique). -/
structure ClusterDesc where
  tags : Option (List (String × String))
deriving DecidableEq, Repr

/-- One request issued to the cloud gateway, with the arguments the Go code
passes.  Constructors mirror the AWS SDK operations invoked in the source. -/
inductive Call where
  | describeClusterVersions
  | getCallerIdentity
  | createRole (roleName : String)
  | attachRolePolicy (roleName policyArn : String)
  | createVpc (cidr name : String)
  | createSubnet (vpcId cidr name azSuffix : String)
  | modifySubnetAttribute (subnetId : String)
  | createInternetGateway (name : String)
  | attachInternetGateway (igwId vpcId : String)
  | createRouteTable (vpcId name : String)
  | createRoute (routeTableId cidr igwId : String)
  | associateRouteTable (routeTableId subnetId : String)
  | createSecurityGroup (vpcId name description : String)
  | createCluster (name roleArn : String) (subnetIds securityGroupIds : List String)
      (version vpcId : String) (autoMode : Bool)
  | createAddon (clusterName addonName : String)
  | listClusters
  | describeCluster (name : String)
  | deleteCluster (name : String)
  | describeNetworkInterfaces (vpcId : String)
  | detachNetworkInterface (attachmentId : String) (force : Bool)
  | deleteNetworkInterface (networkInterfaceId : String)
  | describeVpcs (vpcId : String)
  | describeInternetGateways (vpcId : String)
  | detachInternetGateway (igwId vpcId : String)
  | deleteInternetGateway (igwId : String)
  | describeSubnets (vpcId : String)
  | deleteSubnet (subnetId : String)
  | describeRouteTablesByVpc (vpcId : String)
  | describeRouteTablesById (routeTableId : String)
  | deleteRouteTable (routeTableId : String)
  | describeSecurityGroupsByVpc (vpcId : String)
  | describeSecurityGroupsById (groupId : String)
  | deleteSecurityGroup (groupId : String)
  | deleteVpc (vpcId : String)
  | listVpcsAll
deriving DecidableEq, Repr

/-- Result of the IAM CreateRole call: success, the tolerated
EntityAlreadyExistsException, or any other error. -/
inductive CreateRoleRes where
  | ok
  | entityAlreadyExists
  | otherErr (e : String)
deriving DecidableEq, Repr

/-- Pure model of the cloud gateway: the response each request obtains.
Requests that return fresh identifiers return them as strings. -/
structure Gw where
  describeClusterVersions : Except String (List (Option String))
  getCallerIdentity : Except String (String × String)
  createRole : String → CreateRoleRes
  attachRolePolicy : String → String → Except String Unit
  createVpc : String → String → Except String String
  createSubnet : String → String → String → String → Except String String
  modifySubnetAttribute : String → Except String Unit
  createInternetGateway : String → Except String String
  attachInternetGateway : String → String → Except String Unit
  createRouteTable : String → String → Except String String
  createRoute : String → String → String → Except String Unit
  associateRouteTable : String → String → Except String Unit
  createSecurityGroup : String → String → String → Except String String
  createCluster : String → String → List String → List String → String → String → Bool →
      Except String Unit
  createAddon : String → String → Except String Unit
  listClusters : Except String (List String)
  describeCluster : String → Except String ClusterDesc
  deleteCluster : String → Except String Unit
  describeNetworkInterfaces : String → Except String (List Eni)
  detachNetworkInterface : String → Except String Unit
  deleteNetworkInterface : String → Except String Unit
  describeVpcs : String → Except String Unit
  listInternetGateways : String → Except String (List String)
  detachInternetGateway : String → String → Except String Unit
  deleteInternetGateway : String → Except String Unit
  listSubnets : String → Except String (List String)
  deleteSubnet : String → Except String Unit
  listRouteTables : String → Except String (List String)
  describeRouteTables : String → Except String (List RouteTableDesc)
  deleteRouteTable : String → Except String Unit
  listSecurityGroups : String → Except String (List String)
  describeSecurityGroups : String → Except String (List SgDesc)
  deleteSecurityGroup : String → Except String Unit
  deleteVpc : String → Except String Unit
  listVpcs : Except String (List String)

/-- Trace of issued calls together with the outcome. -/
abbrev TraceRes (α : Type) := List Call × Res α

/-- Sequencing of two traced steps: the second runs only when the first
succeeds; an error or panic of the first short-circuits, keeping the calls
issued so far. -/
def seq {α β : Type} (a : TraceRes α) (f : α → TraceRes β) : TraceRes β :=
  match a with
  | (tr, Res.ok x) => (tr ++ (f x).fst, (f x).snd)
  | (tr, Res.fail e) => (tr, Res.fail e)
  | (tr, Res.panicked) => (tr, Res.panicked)

/-- Lift an SDK response to a step outcome, wrapping the error text. -/
def liftE {α : Type} (msg : String) : Except String α → Res α
  | Except.ok a => Res.ok a
  | Except.error e => Res.fail (msg ++ e)

/-- Lookup in a Go map modelled as an association list (keys unique). -/
def lookupTag (m : List (String × String)) (k : String) : Option String :=
  (m.find? (fun p => p.fst == k)).map Prod.snd

/-- Lexicographic strict comparison of character lists (by code point),
matching the byte-wise lexicographic order Go uses on strings. -/
def charListLt : List Char → List Char → Bool
  | [], [] => false
  | [], _ :: _ => true
  | _ :: _, [] => false
  | a :: as, b :: bs =>
      decide (a.toNat < b.toNat) || (a.toNat == b.toNat && charListLt as bs)

/-- Lexicographic strict order on strings, as Go compares them. -/
def strLt (a b : String) : Bool := charListLt a.data b.data

/-- Insertion of a string into a descending-sorted list, keeping the order
descending (the comparator is the Go relation versions[i] > versions[j]). -/
def orderedInsertDesc (x : String) : List String → List String
  | [] => [x]
  | y :: ys => if strLt y x then x :: y :: ys else y :: orderedInsertDesc x ys

/-- Descending lexicographic sort of the version list: the observable result
of the sort.Slice call in getLatestVersion. -/
def sortDesc : List String → List String
  | [] => []
  | x :: xs => orderedInsertDesc x (sortDesc xs)

/-- Embedding of getLatestVersion (aws helpers): sorts the version strings in
descending lexicographic order and returns the first element; indexing an
empty slice would panic in Go, which corresponds to the `none` case here. -/
def getLatestVersion (versions : List String) : Option String :=
  (sortDesc versions).head?

/-- Embedding of GetLatestEKSVersion: describe the available cluster
versions, extract the non-nil version strings, fail when nothing is
available, otherwise resolve the latest via getLatestVersion. -/
def getLatestEKSVersionM (gw : Gw) : TraceRes String :=
  ([Call.describeClusterVersions],
    match gw.describeClusterVersions with
    | Except.error e => Res.fail ("failed to fetch EKS cluster versions: " ++ e)
    | Except.ok cvs =>
      if cvs.isEmpty then Res.fail "no available EKS versions found"
      else
        let versions := cvs.filterMap id
        if versions.isEmpty then Res.fail "no valid EKS versions found in the response"
        else
          match getLatestVersion versions with
          | some latest => Res.ok latest
          | none => Res.panicked)

/-- Embedding of GetAWSAccountDetails: the STS GetCallerIdentity call,
returning the account id and the caller ARN. -/
def getAWSAccountDetailsM (gw : Gw) : TraceRes (String × String) :=
  ([Call.getCallerIdentity],
    liftE "failed to get caller identity: " gw.getCallerIdentity)

/-- CreateRole step of IamOperations: an EntityAlreadyExistsException is
tolerated (the Go code logs and proceeds), any other error is returned. -/
def createRoleM (gw : Gw) (roleName : String) : TraceRes Unit :=
  ([Call.createRole roleName],
    match gw.createRole roleName with
    | CreateRoleRes.otherErr e =>
        Res.fail ("failed to create role " ++ roleName ++ ": " ++ e)
    | _ => Res.ok ())

/-- Single AttachRolePolicy step. -/
def attachRolePolicyM (gw : Gw) (roleName policyArn : String) : TraceRes Unit :=
  ([Call.attachRolePolicy roleName policyArn],
    liftE ("failed to attach policy " ++ policyArn ++ " to role " ++ roleName ++ ": ")
      (gw.attachRolePolicy roleName policyArn))

/-- Managed policies attached by IamOperations, in source order. -/
def iamPolicies : List String :=
  ["arn:aws:iam::aws:policy/AmazonEKSClusterPolicy",
   "arn:aws:iam::aws:policy/AmazonEKSVPCResourceController"]

/-- Policy-attachment loop of IamOperations. -/
def attachPolicies (gw : Gw) (roleName : String) : List String → TraceRes Unit
  | [] => ([], Res.ok ())
  | p :: rest =>
      seq (attachRolePolicyM gw roleName p) fun _ => attachPolicies gw roleName rest

/-- Embedding of IamOperations: create the role (tolerating an
already-exists condition), then attach the two managed policies; any
untolerated failure propagates. -/
def iamOperations (gw : Gw) (roleName : String) : TraceRes Unit :=
  seq (createRoleM gw roleName) fun _ => attachPolicies gw roleName iamPolicies

/-- Embedding of CheckClusterTag: describe the cluster and report whether
its tag map contains the key with exactly the expected value; a nil tag map,
a missing key or a mismatched value yield false without error. -/
def checkClusterTag (gw : Gw) (clusterName tagName tagValue : String) :
    List Call × Except String Bool :=
  ([Call.describeCluster clusterName],
    match gw.describeCluster clusterName with
    | Except.error e => Except.error ("failed to describe EKS cluster: " ++ e)
    | Except.ok c =>
        Except.ok
          (match c.tags with
           | some m =>
               match lookupTag m tagName with
               | some v => v == tagValue
               | none => false
           | none => false))

/-- CheckClusterTag as a traced step of the teardown flow (a describe error
is fatal in the Go main). -/
def checkClusterTagM (gw : Gw) (clusterName tagName tagValue : String) :
    TraceRes Bool :=
  ((checkClusterTag gw clusterName tagName tagValue).fst,
    match (checkClusterTag gw clusterName tagName tagValue).snd with
    | Except.ok b => Res.ok b
    | Except.error e => Res.fail e)

/-- Embedding of GetVPCIDFromCluster: describe the cluster and read its
VpcId tag; a nil tag map or a missing key is an error. -/
def getVPCIDFromClusterM (gw : Gw) (clusterName : String) : TraceRes String :=
  ([Call.describeCluster clusterName],
    match gw.describeCluster clusterName with
    | Except.error e =>
        Res.fail ("failed to describe EKS cluster " ++ clusterName ++ ": " ++ e)
    | Except.ok c =>
        match c.tags with
        | none => Res.fail ("cluster " ++ clusterName ++ " does not have tags or is malformed")
        | some m =>
            match lookupTag m "VpcId" with
            | some v => Res.ok v
            | none => Res.fail ("vpc-id tag not found on cluster " ++ clusterName))

/-- Embedding of DeleteEKSCluster. -/
def deleteEKSClusterM (gw : Gw) (clusterName : String) : TraceRes Unit :=
  ([Call.deleteCluster clusterName],
    liftE "failed to delete EKS cluster: " (gw.deleteCluster clusterName))

/-- Embedding of ListEKSClusters. -/
def listEKSClustersM (gw : Gw) : TraceRes (List String) :=
  ([Call.listClusters], liftE "failed to list EKS clusters: " gw.listClusters)

/- DeleteVPC phases, in the source order of part_001 DeleteVPC. -/

/-- DescribeNetworkInterfaces for the VPC (phase a of the teardown). -/
def describeEnisM (gw : Gw) (vpcId : String) : TraceRes (List Eni) :=
  ([Call.describeNetworkInterfaces vpcId],
    liftE "unable to describe network interfaces: " (gw.describeNetworkInterfaces vpcId))

/-- Forced DetachNetworkInterface for one attachment id. -/
def detachEniM (gw : Gw) (attachmentId : String) : TraceRes Unit :=
  ([Call.detachNetworkInterface attachmentId true],
    liftE "unable to detach network interface: " (gw.detachNetworkInterface attachmentId))

/-- DeleteNetworkInterface for one interface id. -/
def deleteEniM (gw : Gw) (eniId : String) : TraceRes Unit :=
  ([Call.deleteNetworkInterface eniId],
    liftE "unable to delete network interface: " (gw.deleteNetworkInterface eniId))

/-- Interface loop of DeleteVPC: for each interface, detach (forced) then
delete.  The Go code reads eni.Attachment.AttachmentId without a nil check,
so an interface without an attachment panics before any call is issued for
it (the input struct is built before the request is sent). -/
def detachDeleteEnis (gw : Gw) : List Eni → TraceRes Unit
  | [] => ([], Res.ok ())
  | eni :: rest =>
      match eni.attachment with
      | none => ([], Res.panicked)
      | some att =>
          seq (detachEniM gw att.attachmentId) fun _ =>
          seq (deleteEniM gw eni.networkInterfaceId) fun _ =>
          detachDeleteEnis gw rest

/-- DescribeVpcs existence check issued between the interface and gateway
phases. -/
def describeVpcsM (gw : Gw) (vpcId : String) : TraceRes Unit :=
  ([Call.describeVpcs vpcId], liftE "unable to describe VPC: " (gw.describeVpcs vpcId))

/-- ListInternetGateways (DescribeInternetGateways filtered by VPC). -/
def listIgwsM (gw : Gw) (vpcId : String) : TraceRes (List String) :=
  ([Call.describeInternetGateways vpcId],
    liftE "unable to list Internet Gateways: " (gw.listInternetGateways vpcId))

/-- Detach one internet gateway from the VPC. -/
def detachIgwM (gw : Gw) (igwId vpcId : String) : TraceRes Unit :=
  ([Call.detachInternetGateway igwId vpcId],
    liftE "unable to detach Internet Gateway: " (gw.detachInternetGateway igwId vpcId))

/-- Delete one internet gateway. -/
def deleteIgwM (gw : Gw) (igwId : String) : TraceRes Unit :=
  ([Call.deleteInternetGateway igwId],
    liftE "unable to delete Internet Gateway: " (gw.deleteInternetGateway igwId))

/-- Gateway loop of DeleteVPC: detach then delete each internet gateway. -/
def deleteIgws (gw : Gw) (vpcId : String) : List String → TraceRes Unit
  | [] => ([], Res.ok ())
  | igwId :: rest =>
      seq (detachIgwM gw igwId vpcId) fun _ =>
      seq (deleteIgwM gw igwId) fun _ =>
      deleteIgws gw vpcId rest

/-- ListSubnets (DescribeSubnets filtered by VPC). -/
def listSubnetsM (gw : Gw) (vpcId : String) : TraceRes (List String) :=
  ([Call.describeSubnets vpcId],
    liftE "unable to list subnets: " (gw.listSubnets vpcId))

/-- Delete one subnet. -/
def deleteSubnetM (gw : Gw) (subnetId : String) : TraceRes Unit :=
  ([Call.deleteSubnet subnetId],
    liftE "unable to delete subnet: " (gw.deleteSubnet subnetId))

/-- Subnet loop of DeleteVPC. -/
def deleteSubnets (gw : Gw) : List String → TraceRes Unit
  | [] => ([], Res.ok ())
  | s :: rest => seq (deleteSubnetM gw s) fun _ => deleteSubnets gw rest

/-- ListRouteTables (DescribeRouteTables filtered by VPC). -/
def listRtbsM (gw : Gw) (vpcId : String) : TraceRes (List String) :=
  ([Call.describeRouteTablesByVpc vpcId],
    liftE "unable to list route tables: " (gw.listRouteTables vpcId))

/-- DescribeRouteTables for a single route-table id. -/
def describeRtbM (gw : Gw) (rtbId : String) : TraceRes (List RouteTableDesc) :=
  ([Call.describeRouteTablesById rtbId],
    liftE "unable to describe route table: " (gw.describeRouteTables rtbId))

/-- Delete one route table. -/
def deleteRtbM (gw : Gw) (rtbId : String) : TraceRes Unit :=
  ([Call.deleteRouteTable rtbId],
    liftE "unable to delete route table: " (gw.deleteRouteTable rtbId))

/-- Main-table test on a described route table: some association has the
Main flag non-nil and true. -/
def isMainRouteTable (rt : RouteTableDesc) : Bool :=
  rt.associations.any (fun a => a.main == some true)

/-- Route-table loop of DeleteVPC: describe each table, skip it when an
association marks it as the main table, otherwise delete it.  The Go code
indexes RouteTables[0] of the describe output without a bounds check, so an
empty describe result panics. -/
def deleteRtbs (gw : Gw) : List String → TraceRes Unit
  | [] => ([], Res.ok ())
  | rtbId :: rest =>
      seq (describeRtbM gw rtbId) fun rts =>
      match rts with
      | [] => ([], Res.panicked)
      | rt :: _ =>
          if isMainRouteTable rt then deleteRtbs gw rest
          else seq (deleteRtbM gw rtbId) fun _ => deleteRtbs gw rest

/-- ListSecurityGroups (DescribeSecurityGroups filtered by VPC). -/
def listSgsM (gw : Gw) (vpcId : String) : TraceRes (List String) :=
  ([Call.describeSecurityGroupsByVpc vpcId],
    liftE "unable to list security groups: " (gw.listSecurityGroups vpcId))

/-- DescribeSecurityGroups for a single group id. -/
def describeSgM (gw : Gw) (sgId : String) : TraceRes (List SgDesc) :=
  ([Call.describeSecurityGroupsById sgId],
    liftE "unable to describe security group: " (gw.describeSecurityGroups sgId))

/-- Delete one security group. -/
def deleteSgM (gw : Gw) (sgId : String) : TraceRes Unit :=
  ([Call.deleteSecurityGroup sgId],
    liftE "unable to delete security group: " (gw.deleteSecurityGroup sgId))

/-- Default-group test on a describe output: nonempty and the first group
is named default (the Go condition len > 0 && GroupName == "default"). -/
def isDefaultSg (sgs : List SgDesc) : Bool :=
  match sgs with
  | [] => false
  | sg :: _ => sg.groupName == "default"

/-- Security-group loop of DeleteVPC: describe each group, skip the group
named default, otherwise delete it. -/
def deleteSgs (gw : Gw) : List String → TraceRes Unit
  | [] => ([], Res.ok ())
  | sgId :: rest =>
      seq (describeSgM gw sgId) fun sgs =>
      if isDefaultSg sgs then deleteSgs gw rest
      else seq (deleteSgM gw sgId) fun _ => deleteSgs gw rest

/-- Final DeleteVpc call. -/
def deleteVpcM (gw : Gw) (vpcId : String) : TraceRes Unit :=
  ([Call.deleteVpc vpcId], liftE "unable to delete VPC: " (gw.deleteVpc vpcId))

/-- Embedding of DeleteVPC (part_001): interfaces, existence check,
internet gateways, subnets, route tables, security groups, then the VPC,
each phase aborting the rest on failure. -/
def deleteVPCrun (gw : Gw) (vpcId : String) : TraceRes Unit :=
  seq (describeEnisM gw vpcId) fun enis =>
  seq (detachDeleteEnis gw enis) fun _ =>
  seq (describeVpcsM gw vpcId) fun _ =>
  seq (listIgwsM gw vpcId) fun igws =>
  seq (deleteIgws gw vpcId igws) fun _ =>
  seq (listSubnetsM gw vpcId) fun subs =>
  seq (deleteSubnets gw subs) fun _ =>
  seq (listRtbsM gw vpcId) fun rtbs =>
  seq (deleteRtbs gw rtbs) fun _ =>
  seq (listSgsM gw vpcId) fun sgs =>
  seq (deleteSgs gw sgs) fun _ =>
  deleteVpcM gw vpcId

/-- Operator answers parameterizing a teardown run of main.go. -/
structure DeleteInputs where
  selectedCluster : String
  confirmDelete : Bool
  confirmDeleteVPC : Bool
deriving Repr

/-- Embedding of the Delete Cluster branch of main.go: list clusters
(returning early when none exist), check the provenance tag, gate foreign
clusters on the danger confirmation, then check the isolated-hosting tag;
only in the isolated case resolve the VPC id and delete the cluster (and,
when confirmed, cascade into DeleteVPC).  When the isolated-hosting tag is
absent the switch falls through and no delete call is issued. -/
def deleteFlow (gw : Gw) (inp : DeleteInputs) : TraceRes Unit :=
  seq (listEKSClustersM gw) fun clusters =>
  if clusters.isEmpty then ([], Res.ok ())
  else
    seq (checkClusterTagM gw inp.selectedCluster "CreatedBy" "EKS-Sandbox-Tool")
      fun isCreatedByTool =>
    if !isCreatedByTool && !inp.confirmDelete then ([], Res.ok ())
    else
      seq (checkClusterTagM gw inp.selectedCluster "HostingVPC" "isolated")
        fun isIsolatedVpc =>
      if isIsolatedVpc then
        seq (getVPCIDFromClusterM gw inp.selectedCluster) fun vpcId =>
        if inp.confirmDeleteVPC then
          seq (deleteEKSClusterM gw inp.selectedCluster) fun _ =>
          deleteVPCrun gw vpcId
        else
          deleteEKSClusterM gw inp.selectedCluster
      else ([], Res.ok ())

/- Creation pipeline of main.go (Create Cluster branch). -/

/-- Create the VPC with the fixed CIDR and the dated name. -/
def createVpcM (gw : Gw) (cidr name : String) : TraceRes String :=
  ([Call.createVpc cidr name], liftE "error creating VPC: " (gw.createVpc cidr name))

/-- Create one subnet. -/
def createSubnetM (gw : Gw) (vpcId cidr name azSuffix : String) : TraceRes String :=
  ([Call.createSubnet vpcId cidr name azSuffix],
    liftE "error creating subnet: " (gw.createSubnet vpcId cidr name azSuffix))

/-- ModifySubnetAttribute enabling MapPublicIpOnLaunch. -/
def modifySubnetM (gw : Gw) (subnetId : String) : TraceRes Unit :=
  ([Call.modifySubnetAttribute subnetId],
    liftE "unable to enable auto-assign public IPv4: " (gw.modifySubnetAttribute subnetId))

/-- Embedding of EnableAutoAssignPublicIP over the subnet list. -/
def enableAutoAssignPublicIP (gw : Gw) : List String → TraceRes Unit
  | [] => ([], Res.ok ())
  | s :: rest => seq (modifySubnetM gw s) fun _ => enableAutoAssignPublicIP gw rest

/-- Embedding of CreateInternetGateway: create then attach to the VPC. -/
def createInternetGatewayM (gw : Gw) (name vpcId : String) : TraceRes String :=
  seq ([Call.createInternetGateway name],
        liftE "error creating Internet Gateway: " (gw.createInternetGateway name))
    fun igwId =>
  seq ([Call.attachInternetGateway igwId vpcId],
        liftE "error attaching Internet Gateway: " (gw.attachInternetGateway igwId vpcId))
    fun _ => ([], Res.ok igwId)

/-- Create the route table. -/
def createRouteTableM (gw : Gw) (vpcId name : String) : TraceRes String :=
  ([Call.createRouteTable vpcId name],
    liftE "error creating Route Table: " (gw.createRouteTable vpcId name))

/-- CreateRoute call (its error is discarded by the caller in main.go). -/
def createRouteM (gw : Gw) (routeTableId cidr igwId : String) : TraceRes Unit :=
  ([Call.createRoute routeTableId cidr igwId],
    liftE "error creating route: " (gw.createRoute routeTableId cidr igwId))

/-- AssociateRouteTable call (its error is discarded by the caller). -/
def associateRouteTableM (gw : Gw) (routeTableId subnetId : String) : TraceRes Unit :=
  ([Call.associateRouteTable routeTableId subnetId],
    liftE "error associating route table: " (gw.associateRouteTable routeTableId subnetId))

/-- Models a Go call whose returned error the caller ignores: the calls are
still issued, the outcome is forced to success. -/
def ignoreErr (a : TraceRes Unit) : TraceRes Unit := (a.fst, Res.ok ())

/-- Create the security group. -/
def createSecurityGroupM (gw : Gw) (vpcId name description : String) : TraceRes String :=
  ([Call.createSecurityGroup vpcId name description],
    liftE "error creating Security Group: " (gw.createSecurityGroup vpcId name description))

/-- Embedding of CreateEKSCluster (part_001 signature, with auto mode); the
role ARN is built from the resolved account id as in the source. -/
def createEKSClusterM (gw : Gw) (name accountId : String)
    (subnetIds securityGroupIds : List String)
    (version vpcId : String) (autoMode : Bool) : TraceRes Unit :=
  let roleArn := "arn:aws:iam::" ++ accountId ++ ":role/EKSClusterRole"
  ([Call.createCluster name roleArn subnetIds securityGroupIds version vpcId autoMode],
    liftE "failed to create EKS cluster: "
      (gw.createCluster name roleArn subnetIds securityGroupIds version vpcId autoMode))

/-- Addons installed by InstallAddons, in source order. -/
def addonNames : List String := ["coredns", "kube-proxy", "vpc-cni"]

/-- One CreateAddon call. -/
def createAddonM (gw : Gw) (clusterName addonName : String) : TraceRes Unit :=
  ([Call.createAddon clusterName addonName],
    liftE ("failed to install addon " ++ addonName ++ ": ")
      (gw.createAddon clusterName addonName))

/-- Addon loop of InstallAddons. -/
def installAddonsLoop (gw : Gw) (clusterName : String) : List String → TraceRes Unit
  | [] => ([], Res.ok ())
  | a :: rest => seq (createAddonM gw clusterName a) fun _ => installAddonsLoop gw clusterName rest

/-- Embedding of InstallAddons. -/
def installAddons (gw : Gw) (clusterName : String) : TraceRes Unit :=
  installAddonsLoop gw clusterName addonNames

/-- Operator answers parameterizing a creation run of main.go; currentDate
stands for the date string the Go code formats from the wall clock. -/
structure CreateInputs where
  clusterNameInput : String
  k8sVersion : String
  autoMode : Bool
  createAddons : Bool
  currentDate : String
deriving Repr

/-- Embedding of the Create Cluster branch of main.go: resolve the latest
version (fatal on failure), resolve the account identity, ensure the IAM
role, create VPC, two subnets, enable public IPs, internet gateway, route
table, then the default route and the two route-table associations with
their errors discarded (main.go lines 121 to 123), then the security group,
the cluster, and optionally the addons. -/
def createFlow (gw : Gw) (inp : CreateInputs) : TraceRes Unit :=
  seq (getLatestEKSVersionM gw) fun _ =>
  seq (getAWSAccountDetailsM gw) fun acct =>
  seq (iamOperations gw "EKSClusterRole") fun _ =>
  seq (createVpcM gw "10.0.0.0/16" ("Sandbox-EKS-VPC-" ++ inp.currentDate)) fun vpcId =>
  seq (createSubnetM gw vpcId "10.0.1.0/24" "EKS-Subnet-1" "a") fun subnet1 =>
  seq (createSubnetM gw vpcId "10.0.2.0/24" "EKS-Subnet-2" "b") fun subnet2 =>
  seq (enableAutoAssignPublicIP gw [subnet1, subnet2]) fun _ =>
  seq (createInternetGatewayM gw "EKS-IGW" vpcId) fun igwId =>
  seq (createRouteTableM gw vpcId "EKS-Route-Table") fun routeTableId =>
  seq (ignoreErr (createRouteM gw routeTableId "0.0.0.0/0" igwId)) fun _ =>
  seq (ignoreErr (associateRouteTableM gw routeTableId subnet1)) fun _ =>
  seq (ignoreErr (associateRouteTableM gw routeTableId subnet2)) fun _ =>
  seq (createSecurityGroupM gw vpcId "EKS-SG" "EKS Security Group") fun sgId =>
  seq (createEKSClusterM gw ("Sandbox-" ++ inp.clusterNameInput) acct.fst [subnet1, subnet2]
        [sgId] inp.k8sVersion vpcId inp.autoMode) fun _ =>
  if inp.createAddons then installAddons gw ("Sandbox-" ++ inp.clusterNameInput)
  else ([], Res.ok ())

/-- Operator answers for a creation run of the earlier main (part_002),
which still offers reuse of existing resources; the selected subnet and
security-group lists are what the operator picked in the multi-selects. -/
structure CreateInputsExisting where
  clusterNameInput : String
  k8sVersion : String
  useExistingResources : Bool
  selectedVpc : String
  selectedSubnets : List String
  selectedSecurityGroups : List String
  currentDate : String
deriving Repr

/-- ListVPCs call backing selectExistingResource. -/
def listVpcsM (gw : Gw) : TraceRes (List String) :=
  ([Call.listVpcsAll], liftE "error fetching VPC: " gw.listVpcs)

/-- Embedding of the creation flow of part_002: when reusing, the operator
selects a VPC, subnets and security groups, and fewer than two selected
subnets is fatal before the cluster creation call; when creating new
resources the pipeline matches main.go (without the addon step, and the
part_002 CreateEKSCluster has no auto-mode flag, modelled here with the
flag fixed to false). -/
def createFlowExisting (gw : Gw) (inp : CreateInputsExisting) : TraceRes Unit :=
  seq (getLatestEKSVersionM gw) fun _ =>
  seq (getAWSAccountDetailsM gw) fun acct =>
  seq (iamOperations gw "EKSClusterRole") fun _ =>
  if inp.useExistingResources then
    seq (listVpcsM gw) fun _ =>
    seq (listSubnetsM gw inp.selectedVpc) fun _ =>
    if inp.selectedSubnets.length < 2 then
      ([], Res.fail "At least two subnets are required for EKS.")
    else
      seq (listSgsM gw inp.selectedVpc) fun _ =>
      createEKSClusterM gw ("Sandbox-" ++ inp.clusterNameInput) acct.fst inp.selectedSubnets
        inp.selectedSecurityGroups inp.k8sVersion inp.selectedVpc false
  else
    seq (createVpcM gw "10.0.0.0/16" ("Sandbox-EKS-VPC-" ++ inp.currentDate)) fun vpcId =>
    seq (createSubnetM gw vpcId "10.0.1.0/24" "EKS-Subnet-1" "a") fun subnet1 =>
    seq (createSubnetM gw vpcId "10.0.2.0/24" "EKS-Subnet-2" "b") fun subnet2 =>
    seq (enableAutoAssignPublicIP gw [subnet1, subnet2]) fun _ =>
    seq (createInternetGatewayM gw "EKS-IGW" vpcId) fun igwId =>
    seq (createRouteTableM gw vpcId "EKS-Route-Table") fun routeTableId =>
    seq (ignoreErr (createRouteM gw routeTableId "0.0.0.0/0" igwId)) fun _ =>
    seq (ignoreErr (associateRouteTableM gw routeTableId subnet1)) fun _ =>
    seq (ignoreErr (associateRouteTableM gw routeTableId subnet2)) fun _ =>
    seq (createSecurityGroupM gw vpcId "EKS-SG" "EKS Security Group") fun sgId =>
    createEKSClusterM gw ("Sandbox-" ++ inp.clusterNameInput) acct.fst [subnet1, subnet2]
      [sgId] inp.k8sVersion vpcId false

/-- Phase number of a call in the teardown contract order: interfaces (0),
the existence check and internet gateways (1), subnets (2), route tables
(3), security groups (4), the VPC itself (5).  Calls that cannot occur in
DeleteVPC get phase 6. -/
def phase : Call → Nat
  | Call.describeNetworkInterfaces _ => 0
  | Call.detachNetworkInterface _ _ => 0
  | Call.deleteNetworkInterface _ => 0
  | Call.describeVpcs _ => 1
  | Call.describeInternetGateways _ => 1
  | Call.detachInternetGateway _ _ => 1
  | Call.deleteInternetGateway _ => 1
  | Call.describeSubnets _ => 2
  | Call.deleteSubnet _ => 2
  | Call.describeRouteTablesByVpc _ => 3
  | Call.describeRouteTablesById _ => 3
  | Call.deleteRouteTable _ => 3
  | Call.describeSecurityGroupsByVpc _ => 4
  | Call.describeSecurityGroupsById _ => 4
  | Call.deleteSecurityGroup _ => 4
  | Call.deleteVpc _ => 5
  | _ => 6

/-- A call that mutates remote state (everything except describe, list and
identity lookups). -/
def isMutatingCall : Call → Bool
  | Call.describeClusterVersions => false
  | Call.getCallerIdentity => false
  | Call.listClusters => false
  | Call.describeCluster _ => false
  | Call.describeNetworkInterfaces _ => false
  | Call.describeVpcs _ => false
  | Call.describeInternetGateways _ => false
  | Call.describeSubnets _ => false
  | Call.describeRouteTablesByVpc _ => false
  | Call.describeRouteTablesById _ => false
  | Call.describeSecurityGroupsByVpc _ => false
  | Call.describeSecurityGroupsById _ => false
  | Call.listVpcsAll => false
  | _ => true

/-- The cluster-creation request. -/
def isCreateClusterCall : Call → Bool
  | Call.createCluster _ _ _ _ _ _ _ => true
  | _ => false

/-- Calls whose errors the main.go creation pipeline discards: the default
route and the two route-table associations. -/
def exemptCall : Call → Bool
  | Call.createRoute _ _ _ => true
  | Call.associateRouteTable _ _ => true
  | _ => false

/-- The response of the gateway to a given call succeeded (used to state
that a completed run implies no issued call failed).  For the tolerated
CreateRole call, success means the error was not of the untolerated kind. -/
def respOk (gw : Gw) : Call → Prop
  | Call.describeClusterVersions => ∃ a, gw.describeClusterVersions = Except.ok a
  | Call.getCallerIdentity => ∃ a, gw.getCallerIdentity = Except.ok a
  | Call.createRole r => ∀ e, gw.createRole r ≠ CreateRoleRes.otherErr e
  | Call.attachRolePolicy r p => gw.attachRolePolicy r p = Except.ok ()
  | Call.createVpc c n => ∃ a, gw.createVpc c n = Except.ok a
  | Call.createSubnet v c n z => ∃ a, gw.createSubnet v c n z = Except.ok a
  | Call.modifySubnetAttribute s => gw.modifySubnetAttribute s = Except.ok ()
  | Call.createInternetGateway n => ∃ a, gw.createInternetGateway n = Except.ok a
  | Call.attachInternetGateway i v => gw.attachInternetGateway i v = Except.ok ()
  | Call.createRouteTable v n => ∃ a, gw.createRouteTable v n = Except.ok a
  | Call.createRoute r c i => gw.createRoute r c i = Except.ok ()
  | Call.associateRouteTable r s => gw.associateRouteTable r s = Except.ok ()
  | Call.createSecurityGroup v n d => ∃ a, gw.createSecurityGroup v n d = Except.ok a
  | Call.createCluster n r s g ver v m => gw.createCluster n r s g ver v m = Except.ok ()
  | Call.createAddon c a => gw.createAddon c a = Except.ok ()
  | Call.listClusters => ∃ a, gw.listClusters = Except.ok a
  | Call.describeCluster n => ∃ a, gw.describeCluster n = Except.ok a
  | Call.deleteCluster n => gw.deleteCluster n = Except.ok ()
  | Call.describeNetworkInterfaces v => ∃ a, gw.describeNetworkInterfaces v = Except.ok a
  | Call.detachNetworkInterface a _ => gw.detachNetworkInterface a = Except.ok ()
  | Call.deleteNetworkInterface n => gw.deleteNetworkInterface n = Except.ok ()
  | Call.describeVpcs v => gw.describeVpcs v = Except.ok ()
  | Call.describeInternetGateways v => ∃ a, gw.listInternetGateways v = Except.ok a
  | Call.detachInternetGateway i v => gw.detachInternetGateway i v = Except.ok ()
  | Call.deleteInternetGateway i => gw.deleteInternetGateway i = Except.ok ()
  | Call.describeSubnets v => ∃ a, gw.listSubnets v = Except.ok a
  | Call.deleteSubnet s => gw.deleteSubnet s = Except.ok ()
  | Call.describeRouteTablesByVpc v => ∃ a, gw.listRouteTables v = Except.ok a
  | Call.describeRouteTablesById r => ∃ a, gw.describeRouteTables r = Except.ok a
  | Call.deleteRouteTable r => gw.deleteRouteTable r = Except.ok ()
  | Call.describeSecurityGroupsByVpc v => ∃ a, gw.listSecurityGroups v = Except.ok a
  | Call.describeSecurityGroupsById s => ∃ a, gw.describeSecurityGroups s = Except.ok a
  | Call.deleteSecurityGroup s => gw.deleteSecurityGroup s = Except.ok ()
  | Call.deleteVpc v => gw.deleteVpc v = Except.ok ()
  | Call.listVpcsAll => ∃ a, gw.listVpcs = Except.ok a

/-- Trace segment whose calls all belong to phases between lo and hi and
are emitted in nondecreasing phase order. -/
def PhaseBounded (lo hi : Nat) (tr : List Call) : Prop :=
  tr.Pairwise (fun a b => phase a ≤ phase b) ∧ ∀ c ∈ tr, lo ≤ phase c ∧ phase c ≤ hi

/-- Concrete gateway in which every request succeeds, used to exhibit runs
of the flows on explicit inputs. -/
def gwAllOk : Gw where
  describeClusterVersions := Except.ok [some "1.31", some "1.30"]
  getCallerIdentity := Except.ok ("111122223333", "arn:aws:iam::111122223333:user/dev")
  createRole := fun _ => CreateRoleRes.ok
  attachRolePolicy := fun _ _ => Except.ok ()
  createVpc := fun _ _ => Except.ok "vpc-1"
  createSubnet := fun _ _ n _ => Except.ok (if n == "EKS-Subnet-1" then "subnet-1" else "subnet-2")
  modifySubnetAttribute := fun _ => Except.ok ()
  createInternetGateway := fun _ => Except.ok "igw-1"
  attachInternetGateway := fun _ _ => Except.ok ()
  createRouteTable := fun _ _ => Except.ok "rtb-1"
  createRoute := fun _ _ _ => Except.ok ()
  associateRouteTable := fun _ _ => Except.ok ()
  createSecurityGroup := fun _ _ _ => Except.ok "sg-1"
  createCluster := fun _ _ _ _ _ _ _ => Except.ok ()
  createAddon := fun _ _ => Except.ok ()
  listClusters := Except.ok ["Sandbox-demo"]
  describeCluster := fun _ =>
    Except.ok { tags := some [("CreatedBy", "EKS-Sandbox-Tool"),
                             ("HostingVPC", "isolated"), ("VpcId", "vpc-1")] }
  deleteCluster := fun _ => Except.ok ()
  describeNetworkInterfaces := fun _ =>
    Except.ok [{ networkInterfaceId := "eni-1", attachment := some { attachmentId := "att-1" } }]
  detachNetworkInterface := fun _ => Except.ok ()
  deleteNetworkInterface := fun _ => Except.ok ()
  describeVpcs := fun _ => Except.ok ()
  listInternetGateways := fun _ => Except.ok ["igw-1"]
  detachInternetGateway := fun _ _ => Except.ok ()
  deleteInternetGateway := fun _ => Except.ok ()
  listSubnets := fun _ => Except.ok ["subnet-1", "subnet-2"]
  deleteSubnet := fun _ => Except.ok ()
  listRouteTables := fun _ => Except.ok ["rtb-1"]
  describeRouteTables := fun _ =>
    Except.ok [{ routeTableId := "rtb-1", associations := [{ main := some false }] }]
  deleteRouteTable := fun _ => Except.ok ()
  listSecurityGroups := fun _ => Except.ok ["sg-1"]
  describeSecurityGroups := fun _ => Except.ok [{ groupId := "sg-1", groupName := "EKS-SG" }]
  deleteSecurityGroup := fun _ => Except.ok ()
  deleteVpc := fun _ => Except.ok ()
  listVpcs := Except.ok ["vpc-1"]

/-- Gateway for the non-isolated teardown run: the selected cluster carries
the provenance tag but not the isolated-hosting tag. -/
def gwNotIsolated : Gw :=
  { gwAllOk with
    listClusters := Except.ok ["Sandbox-c"]
    describeCluster := fun _ => Except.ok { tags := some [("CreatedBy", "EKS-Sandbox-Tool")] } }

/-- Teardown inputs for the non-isolated run. -/
def inpNotIsolated : DeleteInputs :=
  { selectedCluster := "Sandbox-c", confirmDelete := false, confirmDeleteVPC := true }

/-- Gateway in which the CreateRoute call fails while everything else
succeeds. -/
def gwRouteFails : Gw :=
  { gwAllOk with createRoute := fun _ _ _ => Except.error "route creation failed" }

/-- Creation inputs used for the concrete creation runs. -/
def inpCreate : CreateInputs :=
  { clusterNameInput := "demo", k8sVersion := "1.31", autoMode := true,
    createAddons := true, currentDate := "2026-10-11" }

/-- Gateway whose selected cluster lacks the provenance tag. -/
def gwForeignCluster : Gw :=
  { gwAllOk with describeCluster := fun _ => Except.ok { tags := some [("Owner", "someone")] } }

/-- Teardown inputs declining the danger confirmation. -/
def inpDeclined : DeleteInputs :=
  { selectedCluster := "Sandbox-demo", confirmDelete := false, confirmDeleteVPC := true }

/-- Gateway in which the create-role call reports that the role already
exists. -/
def gwRoleExists : Gw :=
  { gwAllOk with createRole := fun _ => CreateRoleRes.entityAlreadyExists }

/-- Reuse-mode creation inputs selecting a single subnet. -/
def inpOneSubnet : CreateInputsExisting :=
  { clusterNameInput := "demo", k8sVersion := "1.31", useExistingResources := true,
    selectedVpc := "vpc-1", selectedSubnets := ["subnet-1"],
    selectedSecurityGroups := ["sg-1"], currentDate := "2026-10-11" }

/-- Gateway whose VPC contains a network interface with no attachment. -/
def gwUnattachedEni : Gw :=
  { gwAllOk with
    describeNetworkInterfaces := fun _ =>
      Except.ok [{ networkInterfaceId := "eni-1", attachment := none }] }

/-! Helper lemmas about sequencing, traces and phases. -/

theorem seq_snd {α β : Type} (a : TraceRes α) (f : α → TraceRes β) :
    (seq a f).snd =
      match a.snd with
      | Res.ok x => (f x).snd
      | Res.fail e => Res.fail e
      | Res.panicked => Res.panicked := by
  rcases a with ⟨tr, r⟩
  cases r <;> rfl

theorem seq_fst_of_ok {α β : Type} {a : TraceRes α} {f : α → TraceRes β} {x : α}
    (h : a.snd = Res.ok x) : (seq a f).fst = a.fst ++ (f x).fst := by
  rcases a with ⟨tr, r⟩
  cases r with
  | ok y =>
    simp only [Res.ok.injEq] at h
    subst h
    rfl
  | fail e => exact absurd h (by simp)
  | panicked => exact absurd h (by simp)

theorem seq_snd_of_ok {α β : Type} {a : TraceRes α} {f : α → TraceRes β} {x : α}
    (h : a.snd = Res.ok x) : (seq a f).snd = (f x).snd := by
  rw [seq_snd, h]

theorem seq_fst_of_fail {α β : Type} {a : TraceRes α} {f : α → TraceRes β} {e : String}
    (h : a.snd = Res.fail e) : (seq a f).fst = a.fst := by
  rcases a with ⟨tr, r⟩
  cases r with
  | ok y => exact absurd h (by simp)
  | fail e => rfl
  | panicked => exact absurd h (by simp)

theorem mem_seq {α β : Type} {c : Call} {a : TraceRes α} {f : α → TraceRes β}
    (h : c ∈ (seq a f).fst) : c ∈ a.fst ∨ ∃ x, a.snd = Res.ok x ∧ c ∈ (f x).fst := by
  rcases a with ⟨tr, r⟩
  cases r with
  | ok x =>
    rcases List.mem_append.mp h with h1 | h2
    · exact Or.inl h1
    · exact Or.inr ⟨x, rfl, h2⟩
  | fail e => exact Or.inl h
  | panicked => exact Or.inl h

theorem mem_seq_left {α β : Type} {c : Call} {a : TraceRes α} {f : α → TraceRes β}
    (h : c ∈ a.fst) : c ∈ (seq a f).fst := by
  rcases a with ⟨tr, r⟩
  cases r with
  | ok x => exact List.mem_append.mpr (Or.inl h)
  | fail e => exact h
  | panicked => exact h

theorem mem_seq_right {α β : Type} {c : Call} {a : TraceRes α} {f : α → TraceRes β} {x : α}
    (hx : a.snd = Res.ok x) (h : c ∈ (f x).fst) : c ∈ (seq a f).fst := by
  rw [seq_fst_of_ok hx]
  exact List.mem_append.mpr (Or.inr h)

theorem seq_ok_inv {α β : Type} {a : TraceRes α} {f : α → TraceRes β} {b : β}
    (h : (seq a f).snd = Res.ok b) : ∃ x, a.snd = Res.ok x ∧ (f x).snd = Res.ok b := by
  rcases a with ⟨tr, r⟩
  cases r with
  | ok x => exact ⟨x, rfl, h⟩
  | fail e => exact absurd h (by simp [seq])
  | panicked => exact absurd h (by simp [seq])

theorem liftE_ok_iff {α : Type} (msg : String) (e : Except String α) (a : α) :
    liftE msg e = Res.ok a ↔ e = Except.ok a := by
  cases e <;> simp [liftE]

theorem liftE_ne_panicked {α : Type} (msg : String) (e : Except String α) :
    liftE msg e ≠ Res.panicked := by
  cases e <;> simp [liftE]

theorem phaseBounded_nil (lo hi : Nat) : PhaseBounded lo hi [] :=
  ⟨List.Pairwise.nil, by simp⟩

theorem phaseBounded_single {c : Call} {lo hi : Nat} (h1 : lo ≤ phase c) (h2 : phase c ≤ hi) :
    PhaseBounded lo hi [c] :=
  ⟨List.pairwise_singleton _ _, by simpa using ⟨h1, h2⟩⟩

theorem phaseBounded_mono {lo hi lo' hi' : Nat} {tr : List Call}
    (h : PhaseBounded lo hi tr) (hl : lo' ≤ lo) (hh : hi ≤ hi') : PhaseBounded lo' hi' tr :=
  ⟨h.1, fun c hc => ⟨le_trans hl (h.2 c hc).1, le_trans (h.2 c hc).2 hh⟩⟩

theorem phaseBounded_append {lo m hi : Nat} {l1 l2 : List Call}
    (h1 : PhaseBounded lo m l1) (h2 : PhaseBounded m hi l2)
    (hlm : lo ≤ m) (hmh : m ≤ hi) : PhaseBounded lo hi (l1 ++ l2) := by
  refine ⟨List.pairwise_append.mpr ⟨h1.1, h2.1, ?_⟩, ?_⟩
  · intro a ha b hb
    exact le_trans (h1.2 a ha).2 (h2.2 b hb).1
  · intro c hc
    rcases List.mem_append.mp hc with hc | hc
    · exact ⟨(h1.2 c hc).1, le_trans (h1.2 c hc).2 hmh⟩
    · exact ⟨le_trans hlm (h2.2 c hc).1, (h2.2 c hc).2⟩

theorem phaseBounded_seq {α β : Type} {a : TraceRes α} {f : α → TraceRes β} {lo m hi : Nat}
    (ha : PhaseBounded lo m a.fst) (hf : ∀ x, PhaseBounded m hi (f x).fst)
    (hlm : lo ≤ m) (hmh : m ≤ hi) : PhaseBounded lo hi (seq a f).fst := by
  rcases a with ⟨tr, r⟩
  cases r with
  | ok x => exact phaseBounded_append ha (hf x) hlm hmh
  | fail e => exact phaseBounded_mono ha le_rfl hmh
  | panicked => exact phaseBounded_mono ha le_rfl hmh

theorem phaseBounded_const {n : Nat} {tr : List Call} (h : ∀ c ∈ tr, phase c = n) :
    PhaseBounded n n tr := by
  induction tr with
  | nil => exact phaseBounded_nil n n
  | cons a t ih =>
    refine ⟨List.Pairwise.cons ?_ (ih (fun c hc => h c (List.mem_cons_of_mem a hc))).1, ?_⟩
    · intro b hb
      rw [h a (List.mem_cons_self a t), h b (List.mem_cons_of_mem a hb)]
    · intro c hc
      rw [h c hc]
      exact ⟨le_rfl, le_rfl⟩

theorem phase_eq_of_bounded {n : Nat} {tr : List Call} (h : PhaseBounded n n tr) :
    ∀ c ∈ tr, phase c = n :=
  fun c hc => le_antisymm (h.2 c hc).2 (h.2 c hc).1

theorem describeEnisM_bounded (gw : Gw) (v : String) :
    PhaseBounded 0 0 (describeEnisM gw v).fst :=
  phaseBounded_single le_rfl le_rfl

theorem detachDeleteEnis_bounded (gw : Gw) (l : List Eni) :
    PhaseBounded 0 0 (detachDeleteEnis gw l).fst := by
  induction l with
  | nil => exact phaseBounded_nil 0 0
  | cons eni rest ih =>
    cases h : eni.attachment with
    | none =>
      simp only [detachDeleteEnis, h]
      exact phaseBounded_nil 0 0
    | some att =>
      simp only [detachDeleteEnis, h]
      exact phaseBounded_seq (phaseBounded_single le_rfl le_rfl)
        (fun _ => phaseBounded_seq (phaseBounded_single le_rfl le_rfl)
          (fun _ => ih) le_rfl le_rfl)
        le_rfl le_rfl

theorem describeVpcsM_bounded (gw : Gw) (v : String) :
    PhaseBounded 1 1 (describeVpcsM gw v).fst :=
  phaseBounded_single le_rfl le_rfl

theorem listIgwsM_bounded (gw : Gw) (v : String) :
    PhaseBounded 1 1 (listIgwsM gw v).fst :=
  phaseBounded_single le_rfl le_rfl

theorem deleteIgws_bounded (gw : Gw) (v : String) (l : List String) :
    PhaseBounded 1 1 (deleteIgws gw v l).fst := by
  induction l with
  | nil => exact phaseBounded_nil 1 1
  | cons i rest ih =>
    simp only [deleteIgws]
    exact phaseBounded_seq (phaseBounded_single le_rfl le_rfl)
      (fun _ => phaseBounded_seq (phaseBounded_single le_rfl le_rfl)
        (fun _ => ih) le_rfl le_rfl)
      le_rfl le_rfl

theorem listSubnetsM_bounded (gw : Gw) (v : String) :
    PhaseBounded 2 2 (listSubnetsM gw v).fst :=
  phaseBounded_single le_rfl le_rfl

theorem deleteSubnets_bounded (gw : Gw) (l : List String) :
    PhaseBounded 2 2 (deleteSubnets gw l).fst := by
  induction l with
  | nil => exact phaseBounded_nil 2 2
  | cons s rest ih =>
    simp only [deleteSubnets]
    exact phaseBounded_seq (phaseBounded_single le_rfl le_rfl)
      (fun _ => ih) le_rfl le_rfl

theorem listRtbsM_bounded (gw : Gw) (v : String) :
    PhaseBounded 3 3 (listRtbsM gw v).fst :=
  phaseBounded_single le_rfl le_rfl

theorem deleteRtbs_bounded (gw : Gw) (l : List String) :
    PhaseBounded 3 3 (deleteRtbs gw l).fst := by
  induction l with
  | nil => exact phaseBounded_nil 3 3
  | cons r rest ih =>
    simp only [deleteRtbs]
    refine phaseBounded_seq (phaseBounded_single le_rfl le_rfl) (fun rts => ?_) le_rfl le_rfl
    cases rts with
    | nil => exact phaseBounded_nil 3 3
    | cons rt tl =>
      cases hm : isMainRouteTable rt with
      | true =>
        simp only [hm, if_true]
        exact ih
      | false =>
        simp only [hm, Bool.false_eq_true, if_false]
        exact phaseBounded_seq (phaseBounded_single le_rfl le_rfl)
          (fun _ => ih) le_rfl le_rfl

theorem listSgsM_bounded (gw : Gw) (v : String) :
    PhaseBounded 4 4 (listSgsM gw v).fst :=
  phaseBounded_single le_rfl le_rfl

theorem deleteSgs_bounded (gw : Gw) (l : List String) :
    PhaseBounded 4 4 (deleteSgs gw l).fst := by
  induction l with
  | nil => exact phaseBounded_nil 4 4
  | cons s rest ih =>
    simp only [deleteSgs]
    refine phaseBounded_seq (phaseBounded_single le_rfl le_rfl) (fun sgs => ?_) le_rfl le_rfl
    cases hd : isDefaultSg sgs with
    | true =>
      simp only [hd, if_true]
      exact ih
    | false =>
      simp only [hd, Bool.false_eq_true, if_false]
      exact phaseBounded_seq (phaseBounded_single le_rfl le_rfl)
        (fun _ => ih) le_rfl le_rfl

theorem deleteVpcM_bounded (gw : Gw) (v : String) :
    PhaseBounded 5 5 (deleteVpcM gw v).fst :=
  phaseBounded_single le_rfl le_rfl

theorem deleteVPCrun_bounded (gw : Gw) (v : String) :
    PhaseBounded 0 5 (deleteVPCrun gw v).fst := by
  unfold deleteVPCrun
  exact phaseBounded_seq (describeEnisM_bounded gw v)
    (fun enis => phaseBounded_seq (detachDeleteEnis_bounded gw enis)
      (fun _ => phaseBounded_seq
        (phaseBounded_mono (describeVpcsM_bounded gw v) (by norm_num) le_rfl)
        (fun _ => phaseBounded_seq (listIgwsM_bounded gw v)
          (fun igws => phaseBounded_seq (deleteIgws_bounded gw v igws)
            (fun _ => phaseBounded_seq
              (phaseBounded_mono (listSubnetsM_bounded gw v) (by norm_num) le_rfl)
              (fun subs => phaseBounded_seq (deleteSubnets_bounded gw subs)
                (fun _ => phaseBounded_seq
                  (phaseBounded_mono (listRtbsM_bounded gw v) (by norm_num) le_rfl)
                  (fun rtbs => phaseBounded_seq (deleteRtbs_bounded gw rtbs)
                    (fun _ => phaseBounded_seq
                      (phaseBounded_mono (listSgsM_bounded gw v) (by norm_num) le_rfl)
                      (fun sgs => phaseBounded_seq (deleteSgs_bounded gw sgs)
                        (fun _ =>
                          phaseBounded_mono (deleteVpcM_bounded gw v) (by norm_num) le_rfl)
                        le_rfl (by norm_num))
                      (by norm_num) (by norm_num))
                    le_rfl (by norm_num))
                  (by norm_num) (by norm_num))
                le_rfl (by norm_num))
              (by norm_num) (by norm_num))
            le_rfl (by norm_num))
          le_rfl (by norm_num))
        (by norm_num) (by norm_num))
      le_rfl (by norm_num))
    le_rfl (by norm_num)

theorem detachDeleteEnis_ok_complete (gw : Gw) (l : List Eni)
    (h : (detachDeleteEnis gw l).snd = Res.ok ()) :
    ∀ eni ∈ l, ∃ att, eni.attachment = some att ∧
      Call.detachNetworkInterface att.attachmentId true ∈ (detachDeleteEnis gw l).fst ∧
      Call.deleteNetworkInterface eni.networkInterfaceId ∈ (detachDeleteEnis gw l).fst := by
  induction l with
  | nil =>
    intro eni he
    cases he
  | cons e rest ih =>
    intro eni he
    cases ha : e.attachment with
    | none =>
      rw [detachDeleteEnis, ha] at h
      cases h
    | some att =>
      rw [detachDeleteEnis, ha] at h ⊢
      obtain ⟨x1, hx1, h1⟩ := seq_ok_inv h
      obtain ⟨x2, hx2, h2⟩ := seq_ok_inv h1
      rcases List.mem_cons.mp he with rfl | hmem
      · exact ⟨att, ha, mem_seq_left (by simp [detachEniM]),
          mem_seq_right hx1 (mem_seq_left (by simp [deleteEniM]))⟩
      · obtain ⟨att2, ha2, hm1, hm2⟩ := ih h2 eni hmem
        exact ⟨att2, ha2, mem_seq_right hx1 (mem_seq_right hx2 hm1),
          mem_seq_right hx1 (mem_seq_right hx2 hm2)⟩

/-- C3: in every Network teardown run the trace of issued calls is
nondecreasing in the contract phases (interfaces, then the existence check
and internet gateways, then subnets, then route tables, then security
groups, then the VPC), a call of a strictly later phase never precedes one
of an earlier phase, and whenever any call past the interface phase is
issued, every network interface enumerated for the Network has had its
forced detach and its delete issued (hence, by the phase ordering, before
that call). -/
theorem deleteVPC_teardown_order (gw : Gw) (v : String) :
    ((deleteVPCrun gw v).fst.Pairwise fun a b => phase a ≤ phase b)
    ∧ (∀ i j (hi : i < (deleteVPCrun gw v).fst.length)
        (hj : j < (deleteVPCrun gw v).fst.length),
        phase ((deleteVPCrun gw v).fst.get ⟨i, hi⟩) <
          phase ((deleteVPCrun gw v).fst.get ⟨j, hj⟩) → i < j)
    ∧ (∀ enis, gw.describeNetworkInterfaces v = Except.ok enis →
        ∀ c ∈ (deleteVPCrun gw v).fst, 1 ≤ phase c →
        ∀ eni ∈ enis, ∃ att, eni.attachment = some att ∧
          Call.detachNetworkInterface att.attachmentId true ∈ (deleteVPCrun gw v).fst ∧
          Call.deleteNetworkInterface eni.networkInterfaceId ∈ (deleteVPCrun gw v).fst) := by
  have hb := deleteVPCrun_bounded gw v
  refine ⟨hb.1, ?_, ?_⟩
  · intro i j hi hj hlt
    rcases lt_trichotomy i j with h | h | h
    · exact h
    · subst h
      exact absurd hlt (lt_irrefl _)
    · exact absurd
        (lt_of_lt_of_le hlt (List.pairwise_iff_get.mp hb.1 ⟨j, hj⟩ ⟨i, hi⟩ h))
        (lt_irrefl _)
  · intro enis henis c hc hphase eni hmem
    have h1 : (describeEnisM gw v).snd = Res.ok enis := by
      simp [describeEnisM, liftE, henis]
    unfold deleteVPCrun at hc ⊢
    rcases mem_seq hc with h | ⟨x, hx, hc2⟩
    · have h0 : phase c = 0 := phase_eq_of_bounded (describeEnisM_bounded gw v) c h
      omega
    · have hxe : x = enis := by
        have h2 := h1.symm.trans hx
        injection h2 with h3
        exact h3.symm
      subst hxe
      rcases mem_seq hc2 with h | ⟨y, hy, _⟩
      · have h0 : phase c = 0 := phase_eq_of_bounded (detachDeleteEnis_bounded gw x) c h
        omega
      · have hy' : (detachDeleteEnis gw x).snd = Res.ok () := by
          cases y
          exact hy
        obtain ⟨att, hatt, hm1, hm2⟩ := detachDeleteEnis_ok_complete gw x hy' eni hmem
        exact ⟨att, hatt, mem_seq_right h1 (mem_seq_left hm1),
          mem_seq_right h1 (mem_seq_left hm2)⟩

/-- Witness for C3: in a concrete all-success teardown the subnet deletion
appears in the trace, so the theorem yields the detach and delete of the
enumerated interface, which indeed occur in the trace. -/
theorem deleteVPC_teardown_order_witness :
    ∃ att, (Eni.mk "eni-1" (some (EniAttachment.mk "att-1"))).attachment = some att ∧
      Call.detachNetworkInterface att.attachmentId true ∈ (deleteVPCrun gwAllOk "vpc-1").fst ∧
      Call.deleteNetworkInterface "eni-1" ∈ (deleteVPCrun gwAllOk "vpc-1").fst :=
  (deleteVPC_teardown_order gwAllOk "vpc-1").2.2
    [Eni.mk "eni-1" (some (EniAttachment.mk "att-1"))] rfl
    (Call.deleteSubnet "subnet-1") (by decide) (by decide)
    (Eni.mk "eni-1" (some (EniAttachment.mk "att-1"))) (by decide)

theorem deleteVPCrun_mem_cases (gw : Gw) (v : String) {c : Call}
    (hc : c ∈ (deleteVPCrun gw v).fst) :
    c ∈ (describeEnisM gw v).fst ∨ (∃ enis, c ∈ (detachDeleteEnis gw enis).fst) ∨
    c ∈ (describeVpcsM gw v).fst ∨ c ∈ (listIgwsM gw v).fst ∨
    (∃ igws, c ∈ (deleteIgws gw v igws).fst) ∨ c ∈ (listSubnetsM gw v).fst ∨
    (∃ subs, c ∈ (deleteSubnets gw subs).fst) ∨ c ∈ (listRtbsM gw v).fst ∨
    (∃ rtbs, c ∈ (deleteRtbs gw rtbs).fst) ∨ c ∈ (listSgsM gw v).fst ∨
    (∃ sgs, c ∈ (deleteSgs gw sgs).fst) ∨ c ∈ (deleteVpcM gw v).fst := by
  unfold deleteVPCrun at hc
  rcases mem_seq hc with h | ⟨enis, _, hc⟩
  · exact Or.inl h
  rcases mem_seq hc with h | ⟨_, _, hc⟩
  · exact Or.inr (Or.inl ⟨enis, h⟩)
  rcases mem_seq hc with h | ⟨_, _, hc⟩
  · exact Or.inr (Or.inr (Or.inl h))
  rcases mem_seq hc with h | ⟨igws, _, hc⟩
  · exact Or.inr (Or.inr (Or.inr (Or.inl h)))
  rcases mem_seq hc with h | ⟨_, _, hc⟩
  · exact Or.inr (Or.inr (Or.inr (Or.inr (Or.inl ⟨igws, h⟩))))
  rcases mem_seq hc with h | ⟨subs, _, hc⟩
  · exact Or.inr (Or.inr (Or.inr (Or.inr (Or.inr (Or.inl h)))))
  rcases mem_seq hc with h | ⟨_, _, hc⟩
  · exact Or.inr (Or.inr (Or.inr (Or.inr (Or.inr (Or.inr (Or.inl ⟨subs, h⟩))))))
  rcases mem_seq hc with h | ⟨rtbs, _, hc⟩
  · exact Or.inr (Or.inr (Or.inr (Or.inr (Or.inr (Or.inr (Or.inr (Or.inl h)))))))
  rcases mem_seq hc with h | ⟨_, _, hc⟩
  · exact Or.inr (Or.inr (Or.inr (Or.inr (Or.inr (Or.inr (Or.inr (Or.inr
      (Or.inl ⟨rtbs, h⟩))))))))
  rcases mem_seq hc with h | ⟨sgs, _, hc⟩
  · exact Or.inr (Or.inr (Or.inr (Or.inr (Or.inr (Or.inr (Or.inr (Or.inr (Or.inr
      (Or.inl h)))))))))
  rcases mem_seq hc with h | ⟨_, _, hc⟩
  · exact Or.inr (Or.inr (Or.inr (Or.inr (Or.inr (Or.inr (Or.inr (Or.inr (Or.inr
      (Or.inr (Or.inl ⟨sgs, h⟩))))))))))
  exact Or.inr (Or.inr (Or.inr (Or.inr (Or.inr (Or.inr (Or.inr (Or.inr (Or.inr
    (Or.inr (Or.inr hc))))))))))

theorem deleteRtbs_mem_delete (gw : Gw) (l : List String) :
    ∀ c ∈ (deleteRtbs gw l).fst, ∀ rid, c = Call.deleteRouteTable rid →
      ∃ rt rest, gw.describeRouteTables rid = Except.ok (rt :: rest) ∧
        isMainRouteTable rt = false := by
  induction l with
  | nil =>
    intro c hc
    cases hc
  | cons r rest ih =>
    intro c hc rid hcid
    rw [deleteRtbs] at hc
    rcases mem_seq hc with h | ⟨rts, hrts, hc2⟩
    · subst hcid
      simp [describeRtbM] at h
    · have hdesc : gw.describeRouteTables r = Except.ok rts :=
        (liftE_ok_iff _ _ _).mp hrts
      cases rts with
      | nil => cases hc2
      | cons rt tl =>
        cases hm : isMainRouteTable rt with
        | true =>
          simp only [hm, if_true] at hc2
          exact ih c hc2 rid hcid
        | false =>
          simp only [hm, Bool.false_eq_true, if_false] at hc2
          rcases mem_seq hc2 with h2 | ⟨_, _, hc3⟩
          · have hcr : c = Call.deleteRouteTable r := by
              simpa [deleteRtbM] using h2
            have hidr : rid = r := by
              have h3 := hcid.symm.trans hcr
              injection h3
            subst hidr
            exact ⟨rt, tl, hdesc, hm⟩
          · exact ih c hc3 rid hcid

theorem deleteSgs_mem_delete (gw : Gw) (l : List String) :
    ∀ c ∈ (deleteSgs gw l).fst, ∀ gid, c = Call.deleteSecurityGroup gid →
      ∃ sgs, gw.describeSecurityGroups gid = Except.ok sgs ∧ isDefaultSg sgs = false := by
  induction l with
  | nil =>
    intro c hc
    cases hc
  | cons s rest ih =>
    intro c hc gid hcid
    rw [deleteSgs] at hc
    rcases mem_seq hc with h | ⟨sgs, hsgs, hc2⟩
    · subst hcid
      simp [describeSgM] at h
    · have hdesc : gw.describeSecurityGroups s = Except.ok sgs :=
        (liftE_ok_iff _ _ _).mp hsgs
      cases hd : isDefaultSg sgs with
      | true =>
        simp only [hd, if_true] at hc2
        exact ih c hc2 gid hcid
      | false =>
        simp only [hd, Bool.false_eq_true, if_false] at hc2
        rcases mem_seq hc2 with h2 | ⟨_, _, hc3⟩
        · have hcs : c = Call.deleteSecurityGroup s := by
            simpa [deleteSgM] using h2
          have hids : gid = s := by
            have h3 := hcid.symm.trans hcs
            injection h3
          subst hids
          exact ⟨sgs, hdesc, hd⟩
        · exact ih c hc3 gid hcid

/-- C4: in every Network teardown run, a delete-route-table call is issued
only for a table whose describe output exists and has no association with
the main flag set, and a delete-security-group call is issued only for a
group whose describe output is not headed by a group named default; main
tables and the default group are skipped. -/
theorem deleteVPC_skips_main_and_default (gw : Gw) (v : String) :
    ∀ c ∈ (deleteVPCrun gw v).fst,
      (∀ rid, c = Call.deleteRouteTable rid →
        ∃ rt rest, gw.describeRouteTables rid = Except.ok (rt :: rest) ∧
          isMainRouteTable rt = false)
      ∧ (∀ gid, c = Call.deleteSecurityGroup gid →
        ∃ sgs, gw.describeSecurityGroups gid = Except.ok sgs ∧ isDefaultSg sgs = false) := by
  intro c hc
  rcases deleteVPCrun_mem_cases gw v hc with
    h | ⟨enis, h⟩ | h | h | ⟨igws, h⟩ | h | ⟨subs, h⟩ | h | ⟨rtbs, h⟩ | h | ⟨sgs, h⟩ | h
  · constructor
    · intro rid hcid
      subst hcid
      have h0 := phase_eq_of_bounded (describeEnisM_bounded gw v) _ h
      simp [phase] at h0
    · intro gid hcid
      subst hcid
      have h0 := phase_eq_of_bounded (describeEnisM_bounded gw v) _ h
      simp [phase] at h0
  · constructor
    · intro rid hcid
      subst hcid
      have h0 := phase_eq_of_bounded (detachDeleteEnis_bounded gw enis) _ h
      simp [phase] at h0
    · intro gid hcid
      subst hcid
      have h0 := phase_eq_of_bounded (detachDeleteEnis_bounded gw enis) _ h
      simp [phase] at h0
  · constructor
    · intro rid hcid
      subst hcid
      have h0 := phase_eq_of_bounded (describeVpcsM_bounded gw v) _ h
      simp [phase] at h0
    · intro gid hcid
      subst hcid
      have h0 := phase_eq_of_bounded (describeVpcsM_bounded gw v) _ h
      simp [phase] at h0
  · constructor
    · intro rid hcid
      subst hcid
      have h0 := phase_eq_of_bounded (listIgwsM_bounded gw v) _ h
      simp [phase] at h0
    · intro gid hcid
      subst hcid
      have h0 := phase_eq_of_bounded (listIgwsM_bounded gw v) _ h
      simp [phase] at h0
  · constructor
    · intro rid hcid
      subst hcid
      have h0 := phase_eq_of_bounded (deleteIgws_bounded gw v igws) _ h
      simp [phase] at h0
    · intro gid hcid
      subst hcid
      have h0 := phase_eq_of_bounded (deleteIgws_bounded gw v igws) _ h
      simp [phase] at h0
  · constructor
    · intro rid hcid
      subst hcid
      have h0 := phase_eq_of_bounded (listSubnetsM_bounded gw v) _ h
      simp [phase] at h0
    · intro gid hcid
      subst hcid
      have h0 := phase_eq_of_bounded (listSubnetsM_bounded gw v) _ h
      simp [phase] at h0
  · constructor
    · intro rid hcid
      subst hcid
      have h0 := phase_eq_of_bounded (deleteSubnets_bounded gw subs) _ h
      simp [phase] at h0
    · intro gid hcid
      subst hcid
      have h0 := phase_eq_of_bounded (deleteSubnets_bounded gw subs) _ h
      simp [phase] at h0
  · constructor
    · intro rid hcid
      subst hcid
      simp [listRtbsM] at h
    · intro gid hcid
      subst hcid
      have h0 := phase_eq_of_bounded (listRtbsM_bounded gw v) _ h
      simp [phase] at h0
  · constructor
    · intro rid hcid
      exact deleteRtbs_mem_delete gw rtbs c h rid hcid
    · intro gid hcid
      subst hcid
      have h0 := phase_eq_of_bounded (deleteRtbs_bounded gw rtbs) _ h
      simp [phase] at h0
  · constructor
    · intro rid hcid
      subst hcid
      have h0 := phase_eq_of_bounded (listSgsM_bounded gw v) _ h
      simp [phase] at h0
    · intro gid hcid
      subst hcid
      simp [listSgsM] at h
  · constructor
    · intro rid hcid
      subst hcid
      have h0 := phase_eq_of_bounded (deleteSgs_bounded gw sgs) _ h
      simp [phase] at h0
    · intro gid hcid
      exact deleteSgs_mem_delete gw sgs c h gid hcid
  · constructor
    · intro rid hcid
      subst hcid
      have h0 := phase_eq_of_bounded (deleteVpcM_bounded gw v) _ h
      simp [phase] at h0
    · intro gid hcid
      subst hcid
      have h0 := phase_eq_of_bounded (deleteVpcM_bounded gw v) _ h
      simp [phase] at h0

/-- Witness for C4: in the all-success teardown a delete-route-table call
for the non-main table appears in the trace, and the theorem yields its
describe output with the main flag unset. -/
theorem deleteVPC_skips_main_and_default_witness :
    ∃ rt rest, gwAllOk.describeRouteTables "rtb-1" = Except.ok (rt :: rest) ∧
      isMainRouteTable rt = false :=
  ((deleteVPC_skips_main_and_default gwAllOk "vpc-1")
    (Call.deleteRouteTable "rtb-1") (by decide)).1 "rtb-1" rfl

theorem detachDeleteEnis_panics (gw : Gw)
    (hdet : ∀ a, gw.detachNetworkInterface a = Except.ok ())
    (hdel : ∀ n, gw.deleteNetworkInterface n = Except.ok ()) :
    ∀ l : List Eni, (∃ eni ∈ l, eni.attachment = none) →
      (detachDeleteEnis gw l).snd = Res.panicked := by
  intro l
  induction l with
  | nil =>
    rintro ⟨eni, he, _⟩
    cases he
  | cons e rest ih =>
    rintro ⟨eni, he, hnone⟩
    cases ha : e.attachment with
    | none => simp [detachDeleteEnis, ha]
    | some att =>
      have hmem : ∃ x ∈ rest, x.attachment = none := by
        rcases List.mem_cons.mp he with rfl | hr
        · rw [ha] at hnone
          cases hnone
        · exact ⟨eni, hr, hnone⟩
      have h1 : (detachEniM gw att.attachmentId).snd = Res.ok () := by
        simp [detachEniM, hdet, liftE]
      have h2 : (deleteEniM gw e.networkInterfaceId).snd = Res.ok () := by
        simp [deleteEniM, hdel, liftE]
      simp only [detachDeleteEnis, ha]
      rw [seq_snd_of_ok h1, seq_snd_of_ok h2]
      exact ih hmem

/-- C10: the interface loop of DeleteVPC dereferences the attachment of
each enumerated interface without a nil check, so any Network whose
interface list contains an unattached interface makes the teardown panic
(provided the detach and delete responses do not fail first), rather than
return an error or skip the detach. -/
theorem deleteVPC_panics_on_unattached_interface (gw : Gw) (v : String) (enis : List Eni)
    (hdet : ∀ a, gw.detachNetworkInterface a = Except.ok ())
    (hdel : ∀ n, gw.deleteNetworkInterface n = Except.ok ())
    (henis : gw.describeNetworkInterfaces v = Except.ok enis)
    (hun : ∃ eni ∈ enis, eni.attachment = none) :
    (deleteVPCrun gw v).snd = Res.panicked := by
  have h1 : (describeEnisM gw v).snd = Res.ok enis := by
    simp [describeEnisM, liftE, henis]
  have h2 := detachDeleteEnis_panics gw hdet hdel enis hun
  unfold deleteVPCrun
  rw [seq_snd_of_ok h1, seq_snd, h2]

/-- Witness for C10: the concrete gateway whose VPC contains one
unattached network interface makes the teardown panic. -/
theorem deleteVPC_panics_on_unattached_interface_witness :
    (deleteVPCrun gwUnattachedEni "vpc-1").snd = Res.panicked :=
  deleteVPC_panics_on_unattached_interface gwUnattachedEni "vpc-1"
    [Eni.mk "eni-1" none] (fun _ => rfl) (fun _ => rfl) rfl
    ⟨Eni.mk "eni-1" none, by decide, rfl⟩

theorem charListLt_irrefl : ∀ l : List Char, charListLt l l = false := by
  intro l
  induction l with
  | nil => rfl
  | cons a as ih => simp [charListLt, ih]

theorem charListLt_trans :
    ∀ l1 l2 l3 : List Char, charListLt l1 l2 = true → charListLt l2 l3 = true →
      charListLt l1 l3 = true := by
  intro l1
  induction l1 with
  | nil =>
    intro l2 l3 h12 h23
    cases l2 with
    | nil => simp [charListLt] at h12
    | cons b bs =>
      cases l3 with
      | nil => simp [charListLt] at h23
      | cons c cs => simp [charListLt]
  | cons a as ih =>
    intro l2 l3 h12 h23
    cases l2 with
    | nil => simp [charListLt] at h12
    | cons b bs =>
      cases l3 with
      | nil => simp [charListLt] at h23
      | cons c cs =>
        simp only [charListLt, Bool.or_eq_true, Bool.and_eq_true, beq_iff_eq,
          decide_eq_true_eq] at h12 h23 ⊢
        rcases h12 with h12 | ⟨hab, h12⟩
        · rcases h23 with h23 | ⟨hbc, h23⟩
          · exact Or.inl (by omega)
          · exact Or.inl (by omega)
        · rcases h23 with h23 | ⟨hbc, h23⟩
          · exact Or.inl (by omega)
          · exact Or.inr ⟨by omega, ih bs cs h12 h23⟩

theorem strLt_irrefl (a : String) : strLt a a = false :=
  charListLt_irrefl a.data

theorem strLt_trans {a b c : String} (h1 : strLt a b = true) (h2 : strLt b c = true) :
    strLt a c = true :=
  charListLt_trans _ _ _ h1 h2

theorem sortDesc_max :
    ∀ l : List String, l ≠ [] →
      ∃ m t, sortDesc l = m :: t ∧ m ∈ l ∧ ∀ x ∈ l, strLt m x = false := by
  intro l
  induction l with
  | nil =>
    intro h
    exact absurd rfl h
  | cons a as ih =>
    intro _
    by_cases hnil : as = []
    · subst hnil
      refine ⟨a, [], rfl, List.mem_singleton_self a, ?_⟩
      intro x hx
      rcases List.mem_singleton.mp hx with rfl
      exact strLt_irrefl x
    · obtain ⟨m, t, hsort, hmem, hmax⟩ := ih hnil
      have hs2 : sortDesc (a :: as) = orderedInsertDesc a (m :: t) := by
        rw [show sortDesc (a :: as) = orderedInsertDesc a (sortDesc as) from rfl, hsort]
      cases hcmp : strLt m a with
      | true =>
        refine ⟨a, m :: t, ?_, List.mem_cons_self a as, ?_⟩
        · rw [hs2]
          simp [orderedInsertDesc, hcmp]
        · intro x hx
          rcases List.mem_cons.mp hx with rfl | hxa
          · exact strLt_irrefl x
          · cases hax : strLt a x with
            | false => rfl
            | true =>
              have hmx := strLt_trans hcmp hax
              rw [hmax x hxa] at hmx
              cases hmx
      | false =>
        refine ⟨m, orderedInsertDesc a t, ?_, List.mem_cons_of_mem a hmem, ?_⟩
        · rw [hs2]
          simp [orderedInsertDesc, hcmp]
        · intro x hx
          rcases List.mem_cons.mp hx with rfl | hxa
          · exact hcmp
          · exact hmax x hxa

theorem getLatestVersion_max (l : List String) (hl : l ≠ []) :
    ∃ m, getLatestVersion l = some m ∧ m ∈ l ∧ ∀ x ∈ l, strLt m x = false := by
  obtain ⟨m, t, hs, hm, hx⟩ := sortDesc_max l hl
  exact ⟨m, by simp [getLatestVersion, hs], hm, hx⟩

/-- C5: for every non-empty version list the resolver returns the head of
the list sorted in descending lexicographic string order: an element of the
list that is lexicographically greatest (no list element is strictly
greater); in particular it resolves the list 1.28, 1.9, 1.10 to 1.9 (the
non-numeric behaviour carried over from the source). -/
theorem getLatestVersion_spec :
    (∀ l : List String, l ≠ [] →
      ∃ m, getLatestVersion l = some m ∧ m ∈ l ∧ ∀ x ∈ l, strLt m x = false)
    ∧ getLatestVersion ["1.28", "1.9", "1.10"] = some "1.9" :=
  ⟨getLatestVersion_max, by decide⟩

/-- Witness for C5: the resolver applied to the concrete list of the claim. -/
theorem getLatestVersion_spec_witness :
    ∃ m, getLatestVersion ["1.28", "1.9", "1.10"] = some m ∧
      m ∈ ["1.28", "1.9", "1.10"] ∧
      ∀ x ∈ (["1.28", "1.9", "1.10"] : List String), strLt m x = false :=
  getLatestVersion_spec.1 ["1.28", "1.9", "1.10"] (by decide)

/-- C6: the role-ensuring operation tolerates an entity-already-exists
condition from the create-role call (the attachment loop still runs and the
operation succeeds when the attaches succeed, with both policy attachments
issued), while any other create-role failure makes it return an error. -/
theorem iamOperations_spec (gw : Gw) (roleName : String) :
    (∀ e, gw.createRole roleName = CreateRoleRes.otherErr e →
      (iamOperations gw roleName).snd =
        Res.fail ("failed to create role " ++ roleName ++ ": " ++ e))
    ∧ (gw.createRole roleName = CreateRoleRes.entityAlreadyExists →
        (∀ p ∈ iamPolicies, gw.attachRolePolicy roleName p = Except.ok ()) →
        (iamOperations gw roleName).snd = Res.ok ()
        ∧ ∀ p ∈ iamPolicies, Call.attachRolePolicy roleName p ∈ (iamOperations gw roleName).fst) := by
  constructor
  · intro e he
    have h1 : (createRoleM gw roleName).snd =
        Res.fail ("failed to create role " ++ roleName ++ ": " ++ e) := by
      simp [createRoleM, he]
    rw [iamOperations, seq_snd, h1]
  · intro hex hat
    have h1 : (createRoleM gw roleName).snd = Res.ok () := by
      simp [createRoleM, hex]
    have hp1 : gw.attachRolePolicy roleName "arn:aws:iam::aws:policy/AmazonEKSClusterPolicy" =
        Except.ok () := hat _ (by simp [iamPolicies])
    have hp2 : gw.attachRolePolicy roleName
        "arn:aws:iam::aws:policy/AmazonEKSVPCResourceController" =
        Except.ok () := hat _ (by simp [iamPolicies])
    constructor
    · rw [iamOperations, seq_snd_of_ok h1]
      simp [attachPolicies, iamPolicies, attachRolePolicyM, hp1, hp2, liftE, seq]
    · intro p hp
      have hmem : Call.attachRolePolicy roleName p ∈
          (attachPolicies gw roleName iamPolicies).fst := by
        rcases (by simpa [iamPolicies] using hp :
            p = "arn:aws:iam::aws:policy/AmazonEKSClusterPolicy" ∨
            p = "arn:aws:iam::aws:policy/AmazonEKSVPCResourceController") with rfl | rfl <;>
          simp [attachPolicies, iamPolicies, attachRolePolicyM, hp1, hp2, liftE, seq]
      exact mem_seq_right h1 hmem

/-- Witness for C6: with the create-role call reporting that the role
already exists and the attaches succeeding, the operation succeeds. -/
theorem iamOperations_spec_witness :
    (iamOperations gwRoleExists "EKSClusterRole").snd = Res.ok () :=
  ((iamOperations_spec gwRoleExists "EKSClusterRole").2 rfl (fun _ _ => rfl)).1

/-- C7: the tag check issues only the describe call (no mutating call),
returns an error exactly when the describe fails, and otherwise returns
true exactly when the described tag map exists and maps the key to exactly
the expected value. -/
theorem checkClusterTag_spec (gw : Gw) (n k v : String) :
    (∀ c ∈ (checkClusterTag gw n k v).fst, isMutatingCall c = false)
    ∧ (∀ e, gw.describeCluster n = Except.error e →
        (checkClusterTag gw n k v).snd =
          Except.error ("failed to describe EKS cluster: " ++ e))
    ∧ (∀ cl, gw.describeCluster n = Except.ok cl →
        ∃ b, (checkClusterTag gw n k v).snd = Except.ok b ∧
          (b = true ↔ ∃ m, cl.tags = some m ∧ lookupTag m k = some v)) := by
  refine ⟨?_, ?_, ?_⟩
  · intro c hc
    have hc2 : c = Call.describeCluster n := by simpa [checkClusterTag] using hc
    simp [hc2, isMutatingCall]
  · intro e he
    simp [checkClusterTag, he]
  · intro cl hcl
    refine ⟨(match cl.tags with
             | some m =>
               match lookupTag m k with
               | some v2 => v2 == v
               | none => false
             | none => false), ?_, ?_⟩
    · simp [checkClusterTag, hcl]
    cases ht : cl.tags with
    | none => simp [ht]
    | some m =>
      cases hlk : lookupTag m k with
      | none => simp [ht, hlk]
      | some v2 => simp [ht, hlk, beq_iff_eq]

/-- Witness for C7: the check against the all-success gateway returns a
boolean equivalent to the tag lookup on the described cluster. -/
theorem checkClusterTag_spec_witness :
    ∃ b, (checkClusterTag gwAllOk "Sandbox-demo" "CreatedBy" "EKS-Sandbox-Tool").snd =
        Except.ok b ∧
      (b = true ↔ ∃ m,
        (ClusterDesc.mk (some [("CreatedBy", "EKS-Sandbox-Tool"),
          ("HostingVPC", "isolated"), ("VpcId", "vpc-1")])).tags = some m ∧
        lookupTag m "CreatedBy" = some "EKS-Sandbox-Tool") :=
  (checkClusterTag_spec gwAllOk "Sandbox-demo" "CreatedBy" "EKS-Sandbox-Tool").2.2 _ rfl

/-- C9: a teardown run whose selected cluster fails the provenance tag
check and whose operator declines the danger confirmation issues no
mutating call at all, in particular no delete of any kind. -/
theorem declinedForeignTeardown_no_deletes (gw : Gw) (inp : DeleteInputs)
    (htag : (checkClusterTag gw inp.selectedCluster "CreatedBy" "EKS-Sandbox-Tool").snd =
      Except.ok false)
    (hdecl : inp.confirmDelete = false) :
    ∀ c ∈ (deleteFlow gw inp).fst, isMutatingCall c = false := by
  intro c hc
  unfold deleteFlow at hc
  rcases mem_seq hc with h | ⟨clusters, _, hc2⟩
  · have hc3 : c = Call.listClusters := by simpa [listEKSClustersM] using h
    simp [hc3, isMutatingCall]
  · by_cases hemp : clusters.isEmpty = true
    · simp [hemp] at hc2
    · simp only [hemp, Bool.false_eq_true, if_false] at hc2
      rcases mem_seq hc2 with h | ⟨b, hb, hc3⟩
      · have hc4 : c = Call.describeCluster inp.selectedCluster := by
          simpa [checkClusterTagM, checkClusterTag] using h
        simp [hc4, isMutatingCall]
      · have hb2 : (checkClusterTagM gw inp.selectedCluster "CreatedBy"
            "EKS-Sandbox-Tool").snd = Res.ok false := by
          simp [checkClusterTagM, htag]
        have hbf : b = false := by
          have h3 := hb2.symm.trans hb
          injection h3 with h4
          exact h4.symm
        subst hbf
        simp [hdecl] at hc3

/-- Witness for C9: the concrete declined foreign-cluster teardown, whose
trace consists only of the list and describe calls. -/
theorem declinedForeignTeardown_no_deletes_witness :
    isMutatingCall Call.listClusters = false :=
  declinedForeignTeardown_no_deletes gwForeignCluster inpDeclined rfl rfl
    Call.listClusters (by decide)

/-- C1 (code bug in the source): a teardown run that passes the provenance
check (hence is never aborted at the danger gate) but whose cluster lacks
the isolated-hosting tag completes with only the list and the two describe
calls issued: the Delete Cluster branch of main.go falls through without
ever calling DeleteEKSCluster, contradicting step 3 of the teardown
contract. -/
theorem deleteFlow_no_cluster_delete_when_not_isolated :
    deleteFlow gwNotIsolated inpNotIsolated =
      ([Call.listClusters, Call.describeCluster "Sandbox-c",
        Call.describeCluster "Sandbox-c"], Res.ok ()) := by
  decide

/-! Helper lemmas for the creation pipelines. -/

theorem res_fail_or_ok {α : Type} {a : TraceRes α} (h : a.snd ≠ Res.panicked) :
    (∃ e, a.snd = Res.fail e) ∨ ∃ x, a.snd = Res.ok x := by
  cases hr : a.snd with
  | ok x => exact Or.inr ⟨x, rfl⟩
  | fail e => exact Or.inl ⟨e, rfl⟩
  | panicked => exact absurd hr h

theorem getLatestEKSVersionM_no_panic (gw : Gw) :
    (getLatestEKSVersionM gw).snd ≠ Res.panicked := by
  unfold getLatestEKSVersionM
  cases hd : gw.describeClusterVersions with
  | error e => simp
  | ok cvs =>
    by_cases h1 : cvs.isEmpty = true
    · simp [h1]
    · by_cases h2 : (cvs.filterMap id).isEmpty = true
      · simp [h1, h2]
      · obtain ⟨m, hm, _, _⟩ := getLatestVersion_max (cvs.filterMap id)
          (by simpa [List.isEmpty_iff] using h2)
        simp [h1, h2, hm]

theorem attachPolicies_no_panic (gw : Gw) (r : String) :
    ∀ ps, (attachPolicies gw r ps).snd ≠ Res.panicked := by
  intro ps
  induction ps with
  | nil => simp [attachPolicies]
  | cons p rest ih =>
    cases h : (attachRolePolicyM gw r p).snd with
    | ok x =>
      rw [attachPolicies, seq_snd_of_ok h]
      exact ih
    | fail e =>
      rw [attachPolicies, seq_snd, h]
      simp
    | panicked => exact absurd h (liftE_ne_panicked _ _)

theorem iamOperations_no_panic (gw : Gw) (r : String) :
    (iamOperations gw r).snd ≠ Res.panicked := by
  cases h : (createRoleM gw r).snd with
  | ok x =>
    rw [iamOperations, seq_snd_of_ok h]
    exact attachPolicies_no_panic gw r _
  | fail e =>
    rw [iamOperations, seq_snd, h]
    simp
  | panicked =>
    exfalso
    cases hcr : gw.createRole r <;> simp [createRoleM, hcr] at h

theorem attachPolicies_mem (gw : Gw) (r : String) :
    ∀ ps, ∀ c ∈ (attachPolicies gw r ps).fst,
      ∃ p, p ∈ ps ∧ c = Call.attachRolePolicy r p := by
  intro ps
  induction ps with
  | nil =>
    intro c hc
    cases hc
  | cons q rest ih =>
    intro c hc
    rw [attachPolicies] at hc
    rcases mem_seq hc with h | ⟨_, _, h⟩
    · exact ⟨q, List.mem_cons_self q rest, by simpa [attachRolePolicyM] using h⟩
    · obtain ⟨p, hp, hcp⟩ := ih c h
      exact ⟨p, List.mem_cons_of_mem q hp, hcp⟩

theorem attachPolicies_ok_inv (gw : Gw) (r : String) :
    ∀ ps, (attachPolicies gw r ps).snd = Res.ok () →
      ∀ p ∈ ps, gw.attachRolePolicy r p = Except.ok () := by
  intro ps
  induction ps with
  | nil =>
    intro _ p hp
    cases hp
  | cons q rest ih =>
    intro h p hp
    rw [attachPolicies] at h
    obtain ⟨x, h1, h2⟩ := seq_ok_inv h
    rcases List.mem_cons.mp hp with rfl | hrest
    · cases x
      exact (liftE_ok_iff _ _ _).mp h1
    · exact ih h2 p hrest

theorem iamOperations_mem_calls (gw : Gw) (r : String) :
    ∀ c ∈ (iamOperations gw r).fst,
      c = Call.createRole r ∨ ∃ p, p ∈ iamPolicies ∧ c = Call.attachRolePolicy r p := by
  intro c hc
  rcases mem_seq hc with h | ⟨_, _, h⟩
  · exact Or.inl (by simpa [createRoleM] using h)
  · exact Or.inr (attachPolicies_mem gw r iamPolicies c h)

theorem iamOperations_ok_inv (gw : Gw) (r : String)
    (h : (iamOperations gw r).snd = Res.ok ()) :
    (∀ e, gw.createRole r ≠ CreateRoleRes.otherErr e)
    ∧ ∀ p ∈ iamPolicies, gw.attachRolePolicy r p = Except.ok () := by
  obtain ⟨x, h1, h2⟩ := seq_ok_inv h
  constructor
  · intro e hcr
    simp [createRoleM, hcr] at h1
  · exact attachPolicies_ok_inv gw r iamPolicies h2

theorem iamOperations_no_createCluster (gw : Gw) (r : String) :
    ∀ c ∈ (iamOperations gw r).fst, isCreateClusterCall c = false := by
  intro c hc
  rcases iamOperations_mem_calls gw r c hc with h | ⟨p, _, h⟩ <;>
    simp [h, isCreateClusterCall]

theorem createInternetGatewayM_ok_inv (gw : Gw) (name v igwId : String)
    (h : (createInternetGatewayM gw name v).snd = Res.ok igwId) :
    gw.createInternetGateway name = Except.ok igwId ∧
      gw.attachInternetGateway igwId v = Except.ok () := by
  rw [createInternetGatewayM] at h
  obtain ⟨i0, h1, h2⟩ := seq_ok_inv h
  obtain ⟨u, h3, h4⟩ := seq_ok_inv h2
  have hi : i0 = igwId := by injection h4
  cases u
  rw [hi] at h1 h3
  exact ⟨(liftE_ok_iff _ _ _).mp h1, (liftE_ok_iff _ _ _).mp h3⟩

theorem createInternetGatewayM_mem (gw : Gw) (name v igwId : String)
    (h : (createInternetGatewayM gw name v).snd = Res.ok igwId) :
    ∀ c ∈ (createInternetGatewayM gw name v).fst,
      c = Call.createInternetGateway name ∨ c = Call.attachInternetGateway igwId v := by
  rw [createInternetGatewayM] at h ⊢
  obtain ⟨i0, h1, h2⟩ := seq_ok_inv h
  obtain ⟨u, h3, h4⟩ := seq_ok_inv h2
  have hi : i0 = igwId := by injection h4
  intro c hc
  rcases mem_seq hc with hm | ⟨i1, hx1, hc2⟩
  · exact Or.inl (by simpa using hm)
  · have hi1 : i1 = igwId := by
      have h5 := h1.symm.trans hx1
      injection h5 with h6
      exact h6.symm.trans hi
    rcases mem_seq hc2 with hm | ⟨_, _, hc3⟩
    · rw [hi1] at hm
      exact Or.inr (by simpa using hm)
    · cases hc3

theorem enableAuto_ok_inv (gw : Gw) :
    ∀ ss, (enableAutoAssignPublicIP gw ss).snd = Res.ok () →
      ∀ s ∈ ss, gw.modifySubnetAttribute s = Except.ok () := by
  intro ss
  induction ss with
  | nil =>
    intro _ s hs
    cases hs
  | cons q rest ih =>
    intro h s hs
    rw [enableAutoAssignPublicIP] at h
    obtain ⟨x, h1, h2⟩ := seq_ok_inv h
    rcases List.mem_cons.mp hs with rfl | hrest
    · cases x
      exact (liftE_ok_iff _ _ _).mp h1
    · exact ih h2 s hrest

theorem enableAuto_mem (gw : Gw) :
    ∀ ss, ∀ c ∈ (enableAutoAssignPublicIP gw ss).fst,
      ∃ s, s ∈ ss ∧ c = Call.modifySubnetAttribute s := by
  intro ss
  induction ss with
  | nil =>
    intro c hc
    cases hc
  | cons q rest ih =>
    intro c hc
    rw [enableAutoAssignPublicIP] at hc
    rcases mem_seq hc with h | ⟨_, _, h⟩
    · exact ⟨q, List.mem_cons_self q rest, by simpa [modifySubnetM] using h⟩
    · obtain ⟨s, hs, hcs⟩ := ih c h
      exact ⟨s, List.mem_cons_of_mem q hs, hcs⟩

theorem installAddonsLoop_ok_inv (gw : Gw) (cn : String) :
    ∀ as, (installAddonsLoop gw cn as).snd = Res.ok () →
      ∀ a ∈ as, gw.createAddon cn a = Except.ok () := by
  intro as
  induction as with
  | nil =>
    intro _ a ha
    cases ha
  | cons q rest ih =>
    intro h a ha
    rw [installAddonsLoop] at h
    obtain ⟨x, h1, h2⟩ := seq_ok_inv h
    rcases List.mem_cons.mp ha with rfl | hrest
    · cases x
      exact (liftE_ok_iff _ _ _).mp h1
    · exact ih h2 a hrest

theorem installAddonsLoop_mem (gw : Gw) (cn : String) :
    ∀ as, ∀ c ∈ (installAddonsLoop gw cn as).fst,
      ∃ a, a ∈ as ∧ c = Call.createAddon cn a := by
  intro as
  induction as with
  | nil =>
    intro c hc
    cases hc
  | cons q rest ih =>
    intro c hc
    rw [installAddonsLoop] at hc
    rcases mem_seq hc with h | ⟨_, _, h⟩
    · exact ⟨q, List.mem_cons_self q rest, by simpa [createAddonM] using h⟩
    · obtain ⟨a, ha, hca⟩ := ih c h
      exact ⟨a, List.mem_cons_of_mem q ha, hca⟩

/-- C8: a creation run of the reuse-capable main (part_002) with the
reuse-existing-resources option selected and fewer than two subnets chosen
terminates with an error, and its trace contains no cluster-creation call. -/
theorem reuseRequiresTwoSubnets (gw : Gw) (inp : CreateInputsExisting)
    (hreuse : inp.useExistingResources = true)
    (hlen : inp.selectedSubnets.length < 2) :
    (∃ e, (createFlowExisting gw inp).snd = Res.fail e)
    ∧ ∀ c ∈ (createFlowExisting gw inp).fst, isCreateClusterCall c = false := by
  constructor
  · unfold createFlowExisting
    rcases res_fail_or_ok (getLatestEKSVersionM_no_panic gw) with ⟨e, he⟩ | ⟨lat, h1⟩
    · exact ⟨e, by rw [seq_snd, he]⟩
    simp only [seq_snd_of_ok h1]
    rcases res_fail_or_ok
        (show (getAWSAccountDetailsM gw).snd ≠ Res.panicked from liftE_ne_panicked _ _) with
      ⟨e, he⟩ | ⟨acct, h2⟩
    · exact ⟨e, by rw [seq_snd, he]⟩
    simp only [seq_snd_of_ok h2]
    rcases res_fail_or_ok (iamOperations_no_panic gw "EKSClusterRole") with
      ⟨e, he⟩ | ⟨x3, h3⟩
    · exact ⟨e, by rw [seq_snd, he]⟩
    simp only [seq_snd_of_ok h3]
    rw [if_pos hreuse]
    rcases res_fail_or_ok
        (show (listVpcsM gw).snd ≠ Res.panicked from liftE_ne_panicked _ _) with
      ⟨e, he⟩ | ⟨x4, h4⟩
    · exact ⟨e, by rw [seq_snd, he]⟩
    simp only [seq_snd_of_ok h4]
    rcases res_fail_or_ok
        (show (listSubnetsM gw inp.selectedVpc).snd ≠ Res.panicked from
          liftE_ne_panicked _ _) with
      ⟨e, he⟩ | ⟨x5, h5⟩
    · exact ⟨e, by rw [seq_snd, he]⟩
    simp only [seq_snd_of_ok h5]
    rw [if_pos hlen]
    exact ⟨"At least two subnets are required for EKS.", rfl⟩
  · intro c hc
    unfold createFlowExisting at hc
    rcases mem_seq hc with h | ⟨_, _, hc⟩
    · have hd : c = Call.describeClusterVersions := by
        simpa [getLatestEKSVersionM] using h
      simp [hd, isCreateClusterCall]
    rcases mem_seq hc with h | ⟨_, _, hc⟩
    · have hd : c = Call.getCallerIdentity := by
        simpa [getAWSAccountDetailsM] using h
      simp [hd, isCreateClusterCall]
    rcases mem_seq hc with h | ⟨_, _, hc⟩
    · exact iamOperations_no_createCluster gw _ c h
    rw [if_pos hreuse] at hc
    rcases mem_seq hc with h | ⟨_, _, hc⟩
    · have hd : c = Call.listVpcsAll := by simpa [listVpcsM] using h
      simp [hd, isCreateClusterCall]
    rcases mem_seq hc with h | ⟨_, _, hc⟩
    · have hd : c = Call.describeSubnets inp.selectedVpc := by
        simpa [listSubnetsM] using h
      simp [hd, isCreateClusterCall]
    rw [if_pos hlen] at hc
    cases hc

/-- Witness for C8: the reuse-mode run selecting one subnet fails. -/
theorem reuseRequiresTwoSubnets_witness :
    ∃ e, (createFlowExisting gwAllOk inpOneSubnet).snd = Res.fail e :=
  (reuseRequiresTwoSubnets gwAllOk inpOneSubnet rfl (by decide)).1

/-- Counterexample to C2 as stated: a creation run in which the CreateRoute
call fails nevertheless completes successfully and still issues the
cluster-creation call afterwards, because main.go discards the errors of
CreateRoute and AssociateRouteTable (lines 121 to 123). -/
theorem createFlow_discards_route_error :
    (createFlow gwRouteFails inpCreate).snd = Res.ok ()
    ∧ gwRouteFails.createRoute "rtb-1" "0.0.0.0/0" "igw-1" =
        Except.error "route creation failed"
    ∧ Call.createCluster "Sandbox-demo" "arn:aws:iam::111122223333:role/EKSClusterRole"
        ["subnet-1", "subnet-2"] ["sg-1"] "1.31" "vpc-1" true ∈
      (createFlow gwRouteFails inpCreate).fst := by
  refine ⟨by decide, rfl, by decide⟩

/-- C2 amended: in every creation run of main.go that completes
successfully, every issued Cloud Gateway call other than the exempt ones
(the default-route creation and the two route-table associations, whose
errors the caller discards) received a successful response: no other step
error is ever swallowed, since a failing step aborts the run. -/
theorem createFlow_failfast_except_route_calls (gw : Gw) (inp : CreateInputs)
    (hok : (createFlow gw inp).snd = Res.ok ()) :
    ∀ c ∈ (createFlow gw inp).fst, exemptCall c = false → respOk gw c := by
  intro c hc hex
  unfold createFlow at hok hc
  obtain ⟨lat, h1, hok⟩ := seq_ok_inv hok
  rcases mem_seq hc with h | ⟨lat2, h1b, hc⟩
  · have hd : c = Call.describeClusterVersions := by
      simpa [getLatestEKSVersionM] using h
    subst hd
    cases hv : gw.describeClusterVersions with
    | error e => simp [getLatestEKSVersionM, hv] at h1
    | ok a => exact ⟨a, hv⟩
  obtain ⟨acct, h2, hok⟩ := seq_ok_inv hok
  rcases mem_seq hc with h | ⟨acct2, h2b, hc⟩
  · have hd : c = Call.getCallerIdentity := by
      simpa [getAWSAccountDetailsM] using h
    subst hd
    exact ⟨acct, (liftE_ok_iff _ _ _).mp h2⟩
  have hacct : acct2 = acct := by
    have h5 := h2.symm.trans h2b
    injection h5 with h6
    exact h6.symm
  rw [hacct] at hc
  obtain ⟨x3, h3, hok⟩ := seq_ok_inv hok
  rcases mem_seq hc with h | ⟨_, _, hc⟩
  · obtain ⟨hrole, hattach⟩ := iamOperations_ok_inv gw _ (by cases x3; exact h3)
    rcases iamOperations_mem_calls gw _ c h with hd | ⟨p, hp, hd⟩
    · subst hd
      exact hrole
    · subst hd
      exact hattach p hp
  obtain ⟨vpcId, h4, hok⟩ := seq_ok_inv hok
  rcases mem_seq hc with h | ⟨vpcId2, h4b, hc⟩
  · have hd : c = Call.createVpc "10.0.0.0/16" ("Sandbox-EKS-VPC-" ++ inp.currentDate) := by
      simpa [createVpcM] using h
    subst hd
    exact ⟨vpcId, (liftE_ok_iff _ _ _).mp h4⟩
  have hv2 : vpcId2 = vpcId := by
    have h5 := h4.symm.trans h4b
    injection h5 with h6
    exact h6.symm
  rw [hv2] at hc
  obtain ⟨subnet1, h5, hok⟩ := seq_ok_inv hok
  rcases mem_seq hc with h | ⟨s1b, h5b, hc⟩
  · have hd : c = Call.createSubnet vpcId "10.0.1.0/24" "EKS-Subnet-1" "a" := by
      simpa [createSubnetM] using h
    subst hd
    exact ⟨subnet1, (liftE_ok_iff _ _ _).mp h5⟩
  have hs1 : s1b = subnet1 := by
    have h6 := h5.symm.trans h5b
    injection h6 with h7
    exact h7.symm
  rw [hs1] at hc
  obtain ⟨subnet2, h6, hok⟩ := seq_ok_inv hok
  rcases mem_seq hc with h | ⟨s2b, h6b, hc⟩
  · have hd : c = Call.createSubnet vpcId "10.0.2.0/24" "EKS-Subnet-2" "b" := by
      simpa [createSubnetM] using h
    subst hd
    exact ⟨subnet2, (liftE_ok_iff _ _ _).mp h6⟩
  have hs2 : s2b = subnet2 := by
    have h7 := h6.symm.trans h6b
    injection h7 with h8
    exact h8.symm
  rw [hs2] at hc
  obtain ⟨x7, h7, hok⟩ := seq_ok_inv hok
  rcases mem_seq hc with h | ⟨_, _, hc⟩
  · obtain ⟨s, hs, hd⟩ := enableAuto_mem gw [subnet1, subnet2] c h
    subst hd
    exact enableAuto_ok_inv gw [subnet1, subnet2] (by cases x7; exact h7) s hs
  obtain ⟨igwId, h8, hok⟩ := seq_ok_inv hok
  rcases mem_seq hc with h | ⟨igw2, h8b, hc⟩
  · obtain ⟨hcg, hag⟩ := createInternetGatewayM_ok_inv gw "EKS-IGW" vpcId igwId h8
    rcases createInternetGatewayM_mem gw "EKS-IGW" vpcId igwId h8 c h with hd | hd
    · subst hd
      exact ⟨igwId, hcg⟩
    · subst hd
      exact hag
  have hig : igw2 = igwId := by
    have h9 := h8.symm.trans h8b
    injection h9 with h10
    exact h10.symm
  rw [hig] at hc
  obtain ⟨routeTableId, h9, hok⟩ := seq_ok_inv hok
  rcases mem_seq hc with h | ⟨rtb2, h9b, hc⟩
  · have hd : c = Call.createRouteTable vpcId "EKS-Route-Table" := by
      simpa [createRouteTableM] using h
    subst hd
    exact ⟨routeTableId, (liftE_ok_iff _ _ _).mp h9⟩
  have hrt : rtb2 = routeTableId := by
    have h10 := h9.symm.trans h9b
    injection h10 with h11
    exact h11.symm
  rw [hrt] at hc
  obtain ⟨_, _, hok⟩ := seq_ok_inv hok
  rcases mem_seq hc with h | ⟨_, _, hc⟩
  · have hd : c = Call.createRoute routeTableId "0.0.0.0/0" igwId := by
      simpa [ignoreErr, createRouteM] using h
    rw [hd] at hex
    simp [exemptCall] at hex
  obtain ⟨_, _, hok⟩ := seq_ok_inv hok
  rcases mem_seq hc with h | ⟨_, _, hc⟩
  · have hd : c = Call.associateRouteTable routeTableId subnet1 := by
      simpa [ignoreErr, associateRouteTableM] using h
    rw [hd] at hex
    simp [exemptCall] at hex
  obtain ⟨_, _, hok⟩ := seq_ok_inv hok
  rcases mem_seq hc with h | ⟨_, _, hc⟩
  · have hd : c = Call.associateRouteTable routeTableId subnet2 := by
      simpa [ignoreErr, associateRouteTableM] using h
    rw [hd] at hex
    simp [exemptCall] at hex
  obtain ⟨sgId, h13, hok⟩ := seq_ok_inv hok
  rcases mem_seq hc with h | ⟨sg2, h13b, hc⟩
  · have hd : c = Call.createSecurityGroup vpcId "EKS-SG" "EKS Security Group" := by
      simpa [createSecurityGroupM] using h
    subst hd
    exact ⟨sgId, (liftE_ok_iff _ _ _).mp h13⟩
  have hsg : sg2 = sgId := by
    have h14 := h13.symm.trans h13b
    injection h14 with h15
    exact h15.symm
  rw [hsg] at hc
  obtain ⟨x14, h14, hok⟩ := seq_ok_inv hok
  rcases mem_seq hc with h | ⟨_, _, hc⟩
  · have hd : c = Call.createCluster ("Sandbox-" ++ inp.clusterNameInput)
        ("arn:aws:iam::" ++ acct.fst ++ ":role/EKSClusterRole") [subnet1, subnet2] [sgId]
        inp.k8sVersion vpcId inp.autoMode := by
      simpa [createEKSClusterM] using h
    subst hd
    have h15 : (createEKSClusterM gw ("Sandbox-" ++ inp.clusterNameInput) acct.fst
        [subnet1, subnet2] [sgId] inp.k8sVersion vpcId inp.autoMode).snd = Res.ok () := by
      cases x14
      exact h14
    exact (liftE_ok_iff _ _ _).mp h15
  by_cases had : inp.createAddons = true
  · rw [if_pos had] at hc hok
    obtain ⟨a, ha, hd⟩ := installAddonsLoop_mem gw _ addonNames c hc
    subst hd
    exact installAddonsLoop_ok_inv gw _ addonNames hok a ha
  · rw [if_neg had] at hc
    cases hc

/-- Witness for C2 amended: applying the theorem to the all-success run at
the issued create-VPC call. -/
theorem createFlow_failfast_witness :
    respOk gwAllOk (Call.createVpc "10.0.0.0/16" "Sandbox-EKS-VPC-2026-10-11") :=
  createFlow_failfast_except_route_calls gwAllOk inpCreate (by decide)
    (Call.createVpc "10.0.0.0/16" "Sandbox-EKS-VPC-2026-10-11") (by decide) (by decide)

end Est
